import Mathlib

/-!
Verification of the YouTube upload-notification relay (subscription
reconciliation, dual-webhook mirroring and notification forwarding).

The development is a shallow embedding of the JavaScript sources:

- lib/storage.js              : the single-blob subscription store
- lib/pubsubhubbub.js         : hub client and user-key derivation
- pages/api/subscribe.js      : subscribe reconciliation and its handler
- pages/api/unsubscribe.js    : unsubscribe reconciliation and its handler
- pages/api/websub/[userKey]  : verification echo and notification forwarding

External collaborators are modelled by explicit oracles: the Redis blob
store becomes a Lean list threaded through every operation together with a
saveOk flag standing for whether redis.set succeeds; outbound HTTP to the
hub and to client webhooks becomes a Bool-valued oracle keyed by the
target; the MD5 user-key digest becomes an injective deterministic
encoding of the webhook URL (the code relies on the digest being a
deterministic, collision-free function of the URL); the wall clock
becomes an explicit now argument; WHATWG URL parsing becomes a Bool-valued
oracle passed to each handler.
-/

/-- A subscription record, exactly the object persisted by subscribe.js:
userKey, webhookUrl, channelIds and a last-modified timestamp. -/
structure Subscription where
  userKey    : String
  webhookUrl : String
  channelIds : List String
  timestamp  : String
deriving DecidableEq, Repr

/-- Models generateUserKey from lib/pubsubhubbub.js: there the key is the
MD5 hex digest of the webhook URL truncated to 16 characters.  The hash is
abstracted as an injective deterministic encoding of the URL; determinism
and collision-freeness are the two properties the code relies on. -/
def generateUserKey (webhookUrl : String) : String :=
  ("uk-") ++ webhookUrl

/-- getSubscriptions from lib/storage.js: read the whole collection. -/
def getSubscriptions (store : List Subscription) : List Subscription :=
  store

/-- saveSubscriptions from lib/storage.js: overwrite the whole collection;
saveOk models whether the underlying redis.set call succeeds (on failure
the stored blob is unchanged and false is returned). -/
def saveSubscriptions (saveOk : Bool) (store newSubs : List Subscription) :
    List Subscription × Bool :=
  if saveOk then (newSubs, true) else (store, false)

/-- addSubscription from lib/storage.js: append, then save the whole
collection. -/
def addSubscription (saveOk : Bool) (store : List Subscription)
    (sub : Subscription) : List Subscription × Bool :=
  saveSubscriptions saveOk store (store ++ [sub])

/-- updateSubscription from lib/storage.js: locate the first record whose
userKey matches; if none exists return false, otherwise replace it in
place and save the whole collection. -/
def updateSubscription (saveOk : Bool) (store : List Subscription)
    (userKey : String) (updated : Subscription) : List Subscription × Bool :=
  match store.findIdx? (fun sub => sub.userKey == userKey) with
  | none => (store, false)
  | some i => saveSubscriptions saveOk store (store.set i updated)

/-- findSubscriptionByWebhook from subscribe.js and unsubscribe.js: first
record whose webhookUrl matches, none otherwise. -/
def findSubscriptionByWebhook (store : List Subscription)
    (webhookUrl : String) : Option Subscription :=
  store.find? (fun sub => sub.webhookUrl == webhookUrl)

/-- findSubscriptionByUserKey from lib/storage.js (also inlined in the
websub handler): first record whose userKey matches. -/
def findSubscriptionByUserKey (store : List Subscription)
    (userKey : String) : Option Subscription :=
  store.find? (fun sub => sub.userKey == userKey)

/-- Substring test over character lists; mirrors the semantics of
JavaScript String.prototype.includes. -/
def containsSub (needle : List Char) : List Char → Bool
  | [] => needle.isEmpty
  | x :: xs => needle.isPrefixOf (x :: xs) || containsSub needle xs

/-- First-occurrence substring replacement over character lists; mirrors
the semantics of JavaScript String.prototype.replace with a string
pattern, which rewrites only the first occurrence. -/
def replaceFirstSub (needle repl : List Char) : List Char → List Char
  | [] => []
  | x :: xs =>
    if needle.isPrefixOf (x :: xs) then repl ++ (x :: xs).drop needle.length
    else x :: replaceFirstSub needle repl xs

/-- String-level wrapper for the includes test. -/
def strIncludes (s sub : String) : Bool :=
  containsSub sub.toList s.toList

/-- String-level wrapper for first-occurrence replacement. -/
def strReplaceFirst (s pat repl : String) : String :=
  ⟨replaceFirstSub pat.toList repl.toList s.toList⟩

/-- isValidYouTubeChannelId from subscribe.js and unsubscribe.js: the
string starts with UC and has exactly 24 characters. -/
def isValidYouTubeChannelId (channelId : String) : Bool :=
  ("UC".toList).isPrefixOf channelId.toList && channelId.toList.length == 24

/-- isTestWebhook from subscribe.js, unsubscribe.js and the websub
handler: the URL contains the literal substring webhook-test. -/
def isTestWebhook (webhookUrl : String) : Bool :=
  strIncludes webhookUrl ("webhook-test")

/-- isProductionWebhook from unsubscribe.js: contains webhook but not
webhook-test. -/
def isProductionWebhook (webhookUrl : String) : Bool :=
  strIncludes webhookUrl ("webhook") && !strIncludes webhookUrl ("webhook-test")

/-- isN8nWebhook from unsubscribe.js and the websub handler: contains
either webhook-test or webhook. -/
def isN8nWebhook (webhookUrl : String) : Bool :=
  strIncludes webhookUrl ("webhook-test") || strIncludes webhookUrl ("webhook")

/-- getProductionWebhookUrl from subscribe.js and unsubscribe.js: when the
URL contains webhook-test, replace its first occurrence with webhook,
otherwise null. -/
def getProductionWebhookUrl (webhookUrl : String) : Option String :=
  if strIncludes webhookUrl ("webhook-test") then
    some (strReplaceFirst webhookUrl ("webhook-test") ("webhook"))
  else none

/-- getTestWebhookUrl from unsubscribe.js: when the URL contains webhook
but not webhook-test, replace the first occurrence of webhook with
webhook-test, otherwise null. -/
def getTestWebhookUrl (webhookUrl : String) : Option String :=
  if strIncludes webhookUrl ("webhook") && !strIncludes webhookUrl ("webhook-test") then
    some (strReplaceFirst webhookUrl ("webhook") ("webhook-test"))
  else none

/-- Outcome of one hub call from lib/pubsubhubbub.js, reduced to the
fields the callers inspect: per-channel success flag and the channel. -/
structure HubCallResult where
  success   : Bool
  channelId : String
deriving DecidableEq, Repr

/-- subscribeToChannel from lib/pubsubhubbub.js: posts one subscribe
request for the channel; transport success is the oracle value. -/
def subscribeToChannel (hubOk : String → Bool) (channelId : String) :
    HubCallResult :=
  { success := hubOk channelId, channelId := channelId }

/-- subscribeToChannels from lib/pubsubhubbub.js: one subscribe call per
channel, all attempted, outcomes collected positionally. -/
def subscribeToChannels (hubOk : String → Bool) (channelIds : List String) :
    List HubCallResult :=
  channelIds.map (subscribeToChannel hubOk)

/-- unsubscribeFromChannel from lib/pubsubhubbub.js. -/
def unsubscribeFromChannel (hubOk : String → Bool) (channelId : String) :
    HubCallResult :=
  { success := hubOk channelId, channelId := channelId }

/-- JavaScript Array-from-Set deduplication used in subscribe.js: keeps
the first occurrence of every element, in order.  The seen accumulator
holds the elements already emitted. -/
def dedupKeepFirst (seen : List String) : List String → List String
  | [] => []
  | x :: xs =>
    if seen.contains x then dedupKeepFirst seen xs
    else x :: dedupKeepFirst (x :: seen) xs

/-- Entry point for the Set-based dedup in subscribe.js. -/
def jsSetDedup (l : List String) : List String :=
  dedupKeepFirst [] l

/-- The JSON object processSubscription in subscribe.js returns; fields
the code adds only conditionally are Options (none when the field is
absent from the object). -/
structure SubscribeResult where
  success : Bool
  userKey : Option String
  message : String
  webhookUrl : String
  newlySubscribedChannels : Option (List String)
  resubscribedChannels : Option (List String)
  resubscriptionResults : Option (List HubCallResult)
deriving DecidableEq, Repr

/-- Result of one processSubscription call together with its effects: the
store after the call and the channels for which hub subscribe requests
were issued. -/
structure SubscribeOutcome where
  result   : SubscribeResult
  store    : List Subscription
  hubCalls : List String
deriving DecidableEq, Repr

/-- The failure object processSubscription returns when the store write
fails. -/
def subscribeFailure (webhookUrl : String) : SubscribeResult :=
  { success := false, userKey := none,
    message := "Failed to save/update subscription",
    webhookUrl := webhookUrl,
    newlySubscribedChannels := none,
    resubscribedChannels := none,
    resubscriptionResults := none }

/-- processSubscription from subscribe.js.  Looks up the record by
webhook URL; if present, partitions the request into newly subscribed and
resubscribed channels, merges with Set dedup and updates the record; if
absent, derives the user key and appends a fresh record.  On store
success it issues hub subscribe calls for the new channels and again for
the renewed ones, and builds the response; only the renewal outcomes are
placed in the response, the new-channel outcomes are merely logged. -/
def processSubscription (saveOk : Bool) (hubOk : String → Bool)
    (now : String) (channelIds : List String) (webhookUrl : String)
    (store : List Subscription) : SubscribeOutcome :=
  match findSubscriptionByWebhook store webhookUrl with
  | some existing =>
    let userKey := existing.userKey
    let newly := channelIds.filter (fun id => !existing.channelIds.contains id)
    let resub := channelIds.filter (fun id => existing.channelIds.contains id)
    let updatedChannelIds := jsSetDedup (existing.channelIds ++ newly)
    let updatedSub : Subscription :=
      { existing with channelIds := updatedChannelIds, timestamp := now }
    let saved := updateSubscription saveOk store userKey updatedSub
    if saved.2 then
      let resubResults := subscribeToChannels hubOk resub
      let message :=
        if !newly.isEmpty && !resub.isEmpty then
          "Subscription updated with new channels and existing channels resubscribed"
        else if !newly.isEmpty then "Subscription updated successfully"
        else "All channels have been resubscribed"
      { result :=
          { success := true, userKey := some userKey, message := message,
            webhookUrl := webhookUrl,
            newlySubscribedChannels := if newly.isEmpty then none else some newly,
            resubscribedChannels := if resub.isEmpty then none else some resub,
            resubscriptionResults := if resub.isEmpty then none else some resubResults },
        store := saved.1, hubCalls := newly ++ resub }
    else
      { result := subscribeFailure webhookUrl, store := saved.1, hubCalls := [] }
  | none =>
    let userKey := generateUserKey webhookUrl
    let sub : Subscription :=
      { userKey := userKey, channelIds := channelIds,
        webhookUrl := webhookUrl, timestamp := now }
    let saved := addSubscription saveOk store sub
    if saved.2 then
      { result :=
          { success := true, userKey := some userKey,
            message := "Subscribed successfully", webhookUrl := webhookUrl,
            newlySubscribedChannels :=
              if channelIds.isEmpty then none else some channelIds,
            resubscribedChannels := none, resubscriptionResults := none },
        store := saved.1, hubCalls := channelIds }
    else
      { result := subscribeFailure webhookUrl, store := saved.1, hubCalls := [] }

/-- The JSON object processUnsubscription in unsubscribe.js returns;
remainingChannels is present only on success. -/
structure UnsubscribeResult where
  success : Bool
  message : String
  webhookUrl : String
  unsubscribedChannels : List String
  unsubscriptionResults : List HubCallResult
  remainingChannels : Option (List String)
deriving DecidableEq, Repr

/-- Result of one processUnsubscription call together with its effects. -/
structure UnsubscribeOutcome where
  result   : UnsubscribeResult
  store    : List Subscription
  hubCalls : List String
deriving DecidableEq, Repr

/-- processUnsubscription from unsubscribe.js.  Issues one hub
unsubscribe call per requested channel, computes the remaining channels
by filtering the record, then either deletes the record (remaining empty)
or updates it (remaining non-empty); the store-write outcome decides
success. -/
def processUnsubscription (saveOk : Bool) (hubOk : String → Bool)
    (now : String) (channelsToUnsubscribe : List String)
    (webhookUrl : String) (subscription : Subscription)
    (store : List Subscription) : UnsubscribeOutcome :=
  let userKey := subscription.userKey
  let unsubResults := channelsToUnsubscribe.map (unsubscribeFromChannel hubOk)
  let remainingChannelIds :=
    subscription.channelIds.filter (fun id => !channelsToUnsubscribe.contains id)
  let saved :=
    if remainingChannelIds.isEmpty then
      saveSubscriptions saveOk store
        ((getSubscriptions store).filter (fun sub => sub.userKey != userKey))
    else
      updateSubscription saveOk store userKey
        { subscription with channelIds := remainingChannelIds, timestamp := now }
  if saved.2 then
    { result :=
        { success := true,
          message :=
            if remainingChannelIds.isEmpty then
              "Unsubscribed from all channels and removed subscription"
            else "Unsubscribed from specified channels",
          webhookUrl := webhookUrl,
          unsubscribedChannels := channelsToUnsubscribe,
          unsubscriptionResults := unsubResults,
          remainingChannels := some remainingChannelIds },
      store := saved.1, hubCalls := channelsToUnsubscribe }
  else
    { result :=
        { success := false, message := "Failed to update/remove subscription",
          webhookUrl := webhookUrl,
          unsubscribedChannels := channelsToUnsubscribe,
          unsubscriptionResults := unsubResults,
          remainingChannels := none },
      store := saved.1, hubCalls := channelsToUnsubscribe }

/-- Request body of the subscribe endpoint; absent or non-array fields
are none. -/
structure SubscribeRequest where
  method : String
  channelIds : Option (List String)
  webhookUrl : Option String
deriving DecidableEq, Repr

/-- Response-plus-effects of the subscribe handler: HTTP status, top
level message, offending IDs of the format error if any, the spread main
result, the nested dual result, the final store and the hub trace. -/
structure SubscribeHandlerOutcome where
  status : Nat
  message : String
  invalidChannelIds : Option (List String)
  main : Option SubscribeResult
  dual : Option SubscribeResult
  store : List Subscription
  hubCalls : List String
deriving DecidableEq, Repr

/-- The handler of pages/api/subscribe.js.  Validation order as in the
source: method, channelIds non-empty, channel-ID format, webhookUrl.
When the URL is a test variant its production counterpart is processed
independently right after the main URL, against the store the main call
produced.  validUrl models the WHATWG URL parser used by isValidUrl. -/
def subscribeHandler (validUrl : String → Bool) (saveOk1 saveOk2 : Bool)
    (hubOk : String → Bool) (now : String) (req : SubscribeRequest)
    (store : List Subscription) : SubscribeHandlerOutcome :=
  if req.method != "POST" then
    { status := 405, message := "Method not allowed. Please use POST.",
      invalidChannelIds := none, main := none, dual := none,
      store := store, hubCalls := [] }
  else
    match req.channelIds with
    | none =>
      { status := 400,
        message := "channelIds must be a non-empty array of YouTube channel IDs",
        invalidChannelIds := none, main := none, dual := none,
        store := store, hubCalls := [] }
    | some channelIds =>
      if channelIds.isEmpty then
        { status := 400,
          message := "channelIds must be a non-empty array of YouTube channel IDs",
          invalidChannelIds := none, main := none, dual := none,
          store := store, hubCalls := [] }
      else
        let invalid := channelIds.filter (fun id => !isValidYouTubeChannelId id)
        if !invalid.isEmpty then
          { status := 400,
            message := "One or more channel IDs are not in the correct YouTube format",
            invalidChannelIds := some invalid, main := none, dual := none,
            store := store, hubCalls := [] }
        else
          match req.webhookUrl with
          | none =>
            { status := 400, message := "webhookUrl must be a valid URL",
              invalidChannelIds := none, main := none, dual := none,
              store := store, hubCalls := [] }
          | some webhookUrl =>
            if webhookUrl.isEmpty || !validUrl webhookUrl then
              { status := 400, message := "webhookUrl must be a valid URL",
                invalidChannelIds := none, main := none, dual := none,
                store := store, hubCalls := [] }
            else
              let isTestUrl := isTestWebhook webhookUrl
              let productionWebhookUrl :=
                if isTestUrl then getProductionWebhookUrl webhookUrl else none
              let mainOut :=
                processSubscription saveOk1 hubOk now channelIds webhookUrl store
              match productionWebhookUrl with
              | some prodUrl =>
                let prodOut :=
                  processSubscription saveOk2 hubOk now channelIds prodUrl
                    mainOut.store
                { status := 200, message := mainOut.result.message,
                  invalidChannelIds := none,
                  main := some mainOut.result, dual := some prodOut.result,
                  store := prodOut.store,
                  hubCalls := mainOut.hubCalls ++ prodOut.hubCalls }
              | none =>
                { status := 200, message := mainOut.result.message,
                  invalidChannelIds := none,
                  main := some mainOut.result, dual := none,
                  store := mainOut.store, hubCalls := mainOut.hubCalls }

/-- Request body of the unsubscribe endpoint. -/
structure UnsubscribeRequest where
  method : String
  webhookUrl : Option String
  channelIds : Option (List String)
  allChannels : Option Bool
deriving DecidableEq, Repr

/-- Response-plus-effects of the unsubscribe handler. -/
structure UnsubscribeHandlerOutcome where
  status : Nat
  message : String
  invalidChannelIds : Option (List String)
  main : Option UnsubscribeResult
  dual : Option UnsubscribeResult
  store : List Subscription
  hubCalls : List String
deriving DecidableEq, Repr

/-- Steps 6 and 7 of the unsubscribe handler, shared by the allChannels
and explicit-list paths: determine the counterpart URL, process the main
unsubscription, then, when a counterpart record exists, process the
counterpart with the requested channels narrowed to that record. -/
def unsubscribeCore (saveOk1 saveOk2 : Bool) (hubOk : String → Bool)
    (now : String) (channelsToUnsubscribe : List String)
    (webhookUrl : String) (subscription : Subscription)
    (store : List Subscription) : UnsubscribeHandlerOutcome :=
  let counterpartWebhookUrl :=
    if isN8nWebhook webhookUrl then
      if isTestWebhook webhookUrl then getProductionWebhookUrl webhookUrl
      else if isProductionWebhook webhookUrl then getTestWebhookUrl webhookUrl
      else none
    else none
  let mainOut :=
    processUnsubscription saveOk1 hubOk now channelsToUnsubscribe webhookUrl
      subscription store
  match counterpartWebhookUrl with
  | some counterpartUrl =>
    match findSubscriptionByWebhook mainOut.store counterpartUrl with
    | some counterpartSub =>
      let dualOut :=
        processUnsubscription saveOk2 hubOk now
          (channelsToUnsubscribe.filter
            (fun id => counterpartSub.channelIds.contains id))
          counterpartUrl counterpartSub mainOut.store
      { status := 200, message := mainOut.result.message,
        invalidChannelIds := none,
        main := some mainOut.result, dual := some dualOut.result,
        store := dualOut.store,
        hubCalls := mainOut.hubCalls ++ dualOut.hubCalls }
    | none =>
      { status := 200, message := mainOut.result.message,
        invalidChannelIds := none,
        main := some mainOut.result, dual := none,
        store := mainOut.store, hubCalls := mainOut.hubCalls }
  | none =>
    { status := 200, message := mainOut.result.message,
      invalidChannelIds := none,
      main := some mainOut.result, dual := none,
      store := mainOut.store, hubCalls := mainOut.hubCalls }

/-- The handler of pages/api/unsubscribe.js.  Order as in the source:
method check, URL validation, record lookup (404 when absent), then
channel selection: the allChannels flag takes the whole record, otherwise
the explicit list is format-validated, narrowed to the record, and
rejected when the intersection is empty; with neither input a 400 is
returned.  The chosen channels then flow into unsubscribeCore. -/
def unsubscribeHandler (validUrl : String → Bool) (saveOk1 saveOk2 : Bool)
    (hubOk : String → Bool) (now : String) (req : UnsubscribeRequest)
    (store : List Subscription) : UnsubscribeHandlerOutcome :=
  if req.method != "POST" then
    { status := 405, message := "Method not allowed. Please use POST.",
      invalidChannelIds := none, main := none, dual := none,
      store := store, hubCalls := [] }
  else
    match req.webhookUrl with
    | none =>
      { status := 400, message := "webhookUrl must be a valid URL",
        invalidChannelIds := none, main := none, dual := none,
        store := store, hubCalls := [] }
    | some webhookUrl =>
      if webhookUrl.isEmpty || !validUrl webhookUrl then
        { status := 400, message := "webhookUrl must be a valid URL",
          invalidChannelIds := none, main := none, dual := none,
          store := store, hubCalls := [] }
      else
        match findSubscriptionByWebhook store webhookUrl with
        | none =>
          { status := 404,
            message := "No subscription found for the provided webhook URL",
            invalidChannelIds := none, main := none, dual := none,
            store := store, hubCalls := [] }
        | some subscription =>
          if req.allChannels == some true then
            unsubscribeCore saveOk1 saveOk2 hubOk now
              subscription.channelIds webhookUrl subscription store
          else
            match req.channelIds with
            | some channelIds =>
              if channelIds.isEmpty then
                { status := 400,
                  message := "You must specify either channelIds (array) or allChannels (true) to unsubscribe",
                  invalidChannelIds := none, main := none, dual := none,
                  store := store, hubCalls := [] }
              else
                let invalid :=
                  channelIds.filter (fun id => !isValidYouTubeChannelId id)
                if !invalid.isEmpty then
                  { status := 400,
                    message := "One or more channel IDs are not in the correct YouTube format",
                    invalidChannelIds := some invalid, main := none,
                    dual := none, store := store, hubCalls := [] }
                else
                  let channelsToUnsubscribe :=
                    channelIds.filter
                      (fun id => subscription.channelIds.contains id)
                  if channelsToUnsubscribe.isEmpty then
                    { status := 400,
                      message := "None of the provided channel IDs are in the subscription",
                      invalidChannelIds := none, main := none, dual := none,
                      store := store, hubCalls := [] }
                  else
                    unsubscribeCore saveOk1 saveOk2 hubOk now
                      channelsToUnsubscribe webhookUrl subscription store
            | none =>
              { status := 400,
                message := "You must specify either channelIds (array) or allChannels (true) to unsubscribe",
                invalidChannelIds := none, main := none, dual := none,
                store := store, hubCalls := [] }

/-- Query parameters of an inbound WebSub verification request; a field
is none when absent; the empty string is falsy in the source checks. -/
structure VerificationQuery where
  mode : Option String
  topic : Option String
  challenge : Option String
  leaseSeconds : Option String
deriving DecidableEq, Repr

/-- HTTP reply of the verification handler: status plus the raw body
(the echoed challenge on success, the error message otherwise). -/
structure VerificationReply where
  status : Nat
  body : String
deriving DecidableEq, Repr

/-- JavaScript truthiness of an optional string: present and non-empty. -/
def truthy : Option String → Bool
  | none => false
  | some s => !s.isEmpty

/-- handleVerification from the websub handler: missing mode, topic or
challenge is a 400; otherwise the challenge is echoed verbatim with
status 200.  The store is never consulted: any syntactically complete
request is accepted for any userKey. -/
def handleVerification (userKey : String) (q : VerificationQuery) :
    VerificationReply :=
  if !truthy q.mode || !truthy q.topic || !truthy q.challenge then
    { status := 400, body := "Missing required verification parameters" }
  else
    { status := 200, body := q.challenge.getD "" }

/-- The flat video-entry record the external Atom feed parser produces
(parseYouTubeNotification); every field may be null. -/
structure VideoInfo where
  videoId : Option String
  channelId : Option String
  title : Option String
  link : Option String
  author : Option String
  published : Option String
  updated : Option String
deriving DecidableEq, Repr

/-- The normalized webhook payload built by forwardToWebhook, flattened:
event tag, the video sub-object, the channel sub-object and the dispatch
timestamp. -/
structure WebhookPayload where
  event : String
  videoId : Option String
  videoTitle : Option String
  videoUrl : Option String
  publishedAt : Option String
  updatedAt : Option String
  channelId : Option String
  channelName : Option String
  timestamp : String
deriving DecidableEq, Repr

/-- Payload construction inside forwardToWebhook. -/
def buildPayload (now : String) (v : VideoInfo) : WebhookPayload :=
  { event := "youtube.video.published",
    videoId := v.videoId, videoTitle := v.title, videoUrl := v.link,
    publishedAt := v.published, updatedAt := v.updated,
    channelId := v.channelId, channelName := v.author,
    timestamp := now }

/-- Outcome of one webhook dispatch as forwardToWebhook reports it. -/
structure ForwardResult where
  success : Bool
  webhookUrl : String
deriving DecidableEq, Repr

/-- forwardToWebhook from the websub handler: build the payload and POST
it; postOk models the transport outcome per target URL.  Returns the
reported result together with the dispatch performed. -/
def forwardToWebhook (postOk : String → Bool) (now : String)
    (webhookUrl : String) (v : VideoInfo) :
    ForwardResult × (String × WebhookPayload) :=
  ({ success := postOk webhookUrl, webhookUrl := webhookUrl },
   (webhookUrl, buildPayload now v))

/-- Response-plus-effects of the notification handler: status, message,
the two reported forwarding results and the list of dispatches actually
performed (target URL with the payload POSTed to it). -/
structure NotificationOutcome where
  status : Nat
  message : String
  primaryResult : Option ForwardResult
  counterpartResult : Option ForwardResult
  dispatches : List (String × WebhookPayload)
deriving DecidableEq, Repr

/-- handleNotification from the websub handler.  videoInfo is the result
of the external feed parser (none when parsing failed).  The owning
record is resolved by userKey; the payload is POSTed to its webhookUrl
and, when that URL contains webhook-test or webhook, also to the
counterpart obtained by the first-occurrence rewrite, without consulting
the store for the counterpart; the two dispatches are independent.  Each
forwardToWebhook call in the source stamps its payload with its own
new Date() reading, the second one taken after the first POST has been
awaited, so the handler takes two clock readings: now1 for the primary
dispatch and now2 for the counterpart dispatch. -/
def handleNotification (postOk : String → Bool) (now1 now2 : String)
    (userKey : String) (videoInfo : Option VideoInfo)
    (store : List Subscription) : NotificationOutcome :=
  match videoInfo with
  | none =>
    { status := 400, message := "Failed to parse YouTube notification",
      primaryResult := none, counterpartResult := none, dispatches := [] }
  | some v =>
    match findSubscriptionByUserKey store userKey with
    | none =>
      { status := 404, message := "No subscription found for this userKey",
        primaryResult := none, counterpartResult := none, dispatches := [] }
    | some subscription =>
      let primaryWebhookUrl := subscription.webhookUrl
      let primary := forwardToWebhook postOk now1 primaryWebhookUrl v
      if strIncludes primaryWebhookUrl ("webhook-test")
          || strIncludes primaryWebhookUrl ("webhook") then
        let counterpartUrl :=
          if strIncludes primaryWebhookUrl ("webhook-test") then
            strReplaceFirst primaryWebhookUrl ("webhook-test") ("webhook")
          else
            strReplaceFirst primaryWebhookUrl ("webhook") ("webhook-test")
        let counterpart := forwardToWebhook postOk now2 counterpartUrl v
        { status := 200, message := "Notification processed and forwarded",
          primaryResult := some primary.1,
          counterpartResult := some counterpart.1,
          dispatches := [primary.2, counterpart.2] }
      else
        { status := 200, message := "Notification processed and forwarded",
          primaryResult := some primary.1, counterpartResult := none,
          dispatches := [primary.2] }

/-- Well-formedness of the stored collection, the two record invariants
of the data model: one record per webhook URL, and every userKey is the
one derived from the webhookUrl of its record. -/
def StoreWF (store : List Subscription) : Prop :=
  (store.map Subscription.webhookUrl).Nodup ∧
    ∀ sub ∈ store, sub.userKey = generateUserKey sub.webhookUrl

/-- The webhook URLs a subscribe request may touch: the requested URL
and, when it is a test variant, its production counterpart. -/
def subscribeTouchedUrls (req : SubscribeRequest) : List String :=
  match req.webhookUrl with
  | none => []
  | some url =>
    url :: (if isTestWebhook url then (getProductionWebhookUrl url).toList else [])

/-- The webhook URLs an unsubscribe request may touch: the requested URL
and its counterpart in either direction. -/
def unsubscribeTouchedUrls (req : UnsubscribeRequest) : List String :=
  match req.webhookUrl with
  | none => []
  | some url =>
    url :: (if isTestWebhook url then (getProductionWebhookUrl url).toList
            else if isProductionWebhook url then (getTestWebhookUrl url).toList
            else [])

/-- The decomposition hay = A ++ needle ++ B is the first occurrence of
needle in hay: no decomposition has a shorter left part. -/
def FirstOccAt (needle A B hay : List Char) : Prop :=
  hay = A ++ needle ++ B ∧
    ∀ A2 B2, hay = A2 ++ needle ++ B2 → A.length ≤ A2.length

/-- A concrete one-channel record used by witnesses. -/
def recHookA : Subscription :=
  { userKey := generateUserKey ("https://example.com/hook"),
    webhookUrl := "https://example.com/hook",
    channelIds := ["UC_x5XG1OV2P6uZZ5FSM9Ttw"],
    timestamp := "t1" }

/-- A concrete two-channel record used by witnesses. -/
def recHookAB : Subscription :=
  { userKey := generateUserKey ("https://example.com/hook"),
    webhookUrl := "https://example.com/hook",
    channelIds := ["UC_x5XG1OV2P6uZZ5FSM9Ttw", "UC29ju8bIPH5as8OGnQzwJyA"],
    timestamp := "t1" }

/-- A concrete record with a test-variant n8n webhook URL, used by the
notification witnesses. -/
def recN8nTest : Subscription :=
  { userKey := "k9", webhookUrl := "https://n8n.example.com/webhook-test/yt",
    channelIds := ["UC_x5XG1OV2P6uZZ5FSM9Ttw"], timestamp := "t0" }

/-- A concrete parsed video entry used by the notification witnesses. -/
def vidSample : VideoInfo :=
  { videoId := some ("vid1"), channelId := some ("UC_x5XG1OV2P6uZZ5FSM9Ttw"),
    title := some ("hello"), link := none, author := none,
    published := none, updated := none }

/-! Helper lemmas about the embedded operations. -/

/-- The user-key derivation is collision-free in the model. -/
theorem generateUserKey_inj {a b : String}
    (h : generateUserKey a = generateUserKey b) : a = b := by
  have h2 := congrArg String.data h
  simp only [generateUserKey, String.data_append] at h2
  exact String.ext (List.append_cancel_left h2)

/-- List.contains agrees with membership for strings. -/
theorem contains_true_iff {l : List String} {a : String} :
    l.contains a = true ↔ a ∈ l := by
  simp [List.contains_eq_any_beq]

/-- Negative form of contains_true_iff. -/
theorem contains_false_iff {l : List String} {a : String} :
    l.contains a = false ↔ a ∉ l := by
  rw [← Bool.not_eq_true, not_iff_not]
  exact contains_true_iff

/-- Membership in the accumulator-based dedup. -/
theorem mem_dedupKeepFirst {a : String} :
    ∀ {seen l : List String}, a ∈ dedupKeepFirst seen l ↔ a ∈ l ∧ a ∉ seen := by
  intro seen l
  induction l generalizing seen with
  | nil => simp [dedupKeepFirst]
  | cons x xs ih =>
    cases hx : seen.contains x with
    | true =>
      have hmem : x ∈ seen := contains_true_iff.mp hx
      have hax : a = x → a ∈ seen := fun h => h ▸ hmem
      rw [dedupKeepFirst, hx, if_pos rfl, ih]
      simp only [List.mem_cons]
      tauto
    | false =>
      have hnot : x ∉ seen := contains_false_iff.mp hx
      have hax : a = x → a ∉ seen := fun h => h ▸ hnot
      rw [dedupKeepFirst, hx]
      simp only [Bool.false_eq_true, if_false, List.mem_cons, ih]
      tauto

/-- The Set-based dedup preserves membership. -/
theorem mem_jsSetDedup {l : List String} {a : String} :
    a ∈ jsSetDedup l ↔ a ∈ l := by
  unfold jsSetDedup
  rw [mem_dedupKeepFirst]
  simp

/-- A successful find? splits the list at the first hit. -/
theorem find?_decomp {α : Type} {p : α → Bool} {l : List α} {a : α}
    (h : l.find? p = some a) :
    ∃ l1 l2, l = l1 ++ a :: l2 ∧ ∀ x ∈ l1, p x = false := by
  induction l with
  | nil => simp [List.find?] at h
  | cons x xs ih =>
    cases hx : p x with
    | true =>
      simp only [List.find?_cons, hx] at h
      cases h
      exact ⟨[], xs, rfl, by simp⟩
    | false =>
      simp only [List.find?_cons, hx] at h
      obtain ⟨l1, l2, rfl, hl1⟩ := ih h
      refine ⟨x :: l1, l2, rfl, ?_⟩
      intro y hy
      rcases List.mem_cons.mp hy with rfl | hy
      · exact hx
      · exact hl1 y hy

/-- find? over a list split around the first element satisfying p. -/
theorem find?_middle {α : Type} {p : α → Bool} {l1 : List α} (b : α)
    (l2 : List α) (h1 : ∀ x ∈ l1, p x = false) (h2 : p b = true) :
    (l1 ++ b :: l2).find? p = some b := by
  rw [List.find?_append]
  have hnone : l1.find? p = none := List.find?_eq_none.mpr (by
    intro x hx
    simp [h1 x hx])
  rw [hnone]
  simp [List.find?_cons, h2]

/-- findIdx? over a list split around the first element satisfying q. -/
theorem findIdx?_middle {α : Type} {q : α → Bool} {l1 : List α} (b : α)
    (l2 : List α) (h1 : ∀ x ∈ l1, q x = false) (h2 : q b = true) :
    (l1 ++ b :: l2).findIdx? q = some l1.length := by
  rw [List.findIdx?_append]
  have hnone : l1.findIdx? q = none := List.findIdx?_eq_none_iff.mpr h1
  rw [hnone]
  simp [List.findIdx?_cons, h2]

/-- Setting the element right after the prefix l1. -/
theorem set_middle {α : Type} (l1 : List α) (b u : α) (l2 : List α) :
    (l1 ++ b :: l2).set l1.length u = l1 ++ u :: l2 := by
  rw [List.set_append]
  simp

/-- updateSubscription on a store split at the unique key match replaces
that record in place. -/
theorem updateSubscription_middle {l1 l2 : List Subscription}
    {b u : Subscription} {k : String}
    (h1 : ∀ x ∈ l1, (x.userKey == k) = false) (h2 : (b.userKey == k) = true) :
    updateSubscription true (l1 ++ b :: l2) k u = (l1 ++ u :: l2, true) := by
  unfold updateSubscription
  rw [findIdx?_middle b l2 h1 h2]
  simp [saveSubscriptions, set_middle]

/-- updateSubscription with a failing save leaves the store unchanged. -/
theorem updateSubscription_false (store : List Subscription) (k : String)
    (u : Subscription) : updateSubscription false store k u = (store, false) := by
  unfold updateSubscription
  cases h : store.findIdx? (fun s => s.userKey == k) <;> simp [saveSubscriptions]

/-- updateSubscription succeeds when some record carries the key and the
save succeeds. -/
theorem updateSubscription_mem_true {store : List Subscription} {k : String}
    {u : Subscription} (b : Subscription) (hb : b ∈ store)
    (hk : (b.userKey == k) = true) :
    (updateSubscription true store k u).2 = true := by
  unfold updateSubscription
  cases h : store.findIdx? (fun s => s.userKey == k) with
  | none =>
    rw [List.findIdx?_eq_none_iff] at h
    exact absurd (h b hb) (by simp [hk])
  | some i => simp [saveSubscriptions]

/-- Canonical decomposition of a well-formed store at a record located by
webhook URL: the record splits the store, earlier records match neither
the URL nor the key, later records match neither either, and the key is
the one derived from the URL. -/
theorem store_decomp {store : List Subscription} {url : String}
    {sub : Subscription} (hwf : StoreWF store)
    (hfind : findSubscriptionByWebhook store url = some sub) :
    ∃ l1 l2, store = l1 ++ sub :: l2 ∧ sub.webhookUrl = url ∧
      sub.userKey = generateUserKey url ∧
      (∀ x ∈ l1, (x.webhookUrl == url) = false) ∧
      (∀ x ∈ l2, (x.webhookUrl == url) = false) ∧
      (∀ x ∈ l1, (x.userKey == sub.userKey) = false) ∧
      (∀ x ∈ l2, (x.userKey == sub.userKey) = false) := by
  have hsubmem : sub ∈ store := List.mem_of_find?_eq_some hfind
  have hsuburl : sub.webhookUrl = url := by
    have := List.find?_some hfind
    exact beq_iff_eq.mp this
  have hsubkey : sub.userKey = generateUserKey url := by
    have := hwf.2 sub hsubmem
    rw [this, hsuburl]
  obtain ⟨l1, l2, heq, hl1⟩ := find?_decomp hfind
  have hnodup := hwf.1
  rw [heq] at hnodup
  simp only [List.map_append, List.map_cons, List.nodup_append,
    List.nodup_cons] at hnodup
  have hl2url : ∀ x ∈ l2, (x.webhookUrl == url) = false := by
    intro x hx
    have hne : sub.webhookUrl ≠ x.webhookUrl := by
      intro hcontra
      exact hnodup.2.1.1 (hcontra ▸ List.mem_map_of_mem Subscription.webhookUrl hx)
    rw [beq_eq_false_iff_ne]
    intro hxu
    exact hne (by rw [hsuburl, hxu])
  have hkeys : ∀ x ∈ store, x.userKey = generateUserKey x.webhookUrl := hwf.2
  have hl1mem : ∀ x ∈ l1, x ∈ store := by
    intro x hx; rw [heq]; exact List.mem_append.mpr (Or.inl hx)
  have hl2mem : ∀ x ∈ l2, x ∈ store := by
    intro x hx; rw [heq]
    exact List.mem_append.mpr (Or.inr (List.mem_cons.mpr (Or.inr hx)))
  have keyfact : ∀ x ∈ store, (x.webhookUrl == url) = false →
      (x.userKey == sub.userKey) = false := by
    intro x hx hurl
    rw [beq_eq_false_iff_ne]
    intro hkeq
    have h1 : generateUserKey x.webhookUrl = generateUserKey url := by
      rw [← hkeys x hx, hkeq, hsubkey]
    have h2 : x.webhookUrl = url := generateUserKey_inj h1
    rw [beq_eq_false_iff_ne] at hurl
    exact hurl h2
  refine ⟨l1, l2, heq, hsuburl, hsubkey, hl1, hl2url, ?_, ?_⟩
  · intro x hx
    exact keyfact x (hl1mem x hx) (hl1 x hx)
  · intro x hx
    exact keyfact x (hl2mem x hx) (hl2url x hx)

/-- Replacing a record in place while preserving its URL and key keeps
the store well-formed. -/
theorem storeWF_replace {l1 l2 : List Subscription} {b u : Subscription}
    (hwf : StoreWF (l1 ++ b :: l2)) (hurl : u.webhookUrl = b.webhookUrl)
    (hkey : u.userKey = b.userKey) : StoreWF (l1 ++ u :: l2) := by
  constructor
  · have h := hwf.1
    simp only [List.map_append, List.map_cons, hurl] at h ⊢
    exact h
  · intro sub hsub
    rcases List.mem_append.mp hsub with h | h
    · exact hwf.2 sub (List.mem_append.mpr (Or.inl h))
    · rcases List.mem_cons.mp h with rfl | h
      · rw [hkey, hurl]
        exact hwf.2 b (List.mem_append.mpr (Or.inr (List.mem_cons.mpr (Or.inl rfl))))
      · exact hwf.2 sub
          (List.mem_append.mpr (Or.inr (List.mem_cons.mpr (Or.inr h))))

/-- Appending a record for a webhook URL not yet present keeps the store
well-formed when the new key is the derived one. -/
theorem storeWF_append_fresh {store : List Subscription} {url : String}
    (hwf : StoreWF store)
    (hnone : findSubscriptionByWebhook store url = none)
    (cids : List String) (ts : String) :
    StoreWF (store ++
      [({ userKey := generateUserKey url, webhookUrl := url,
          channelIds := cids, timestamp := ts } : Subscription)]) := by
  have hfresh : ∀ x ∈ store, x.webhookUrl ≠ url := by
    intro x hx
    have := List.find?_eq_none.mp hnone x hx
    simpa [beq_iff_eq] using this
  constructor
  · simp only [List.map_append, List.map_cons, List.map_nil,
      List.nodup_append, List.nodup_cons]
    refine ⟨hwf.1, by simp, ?_⟩
    intro v hv
    simp only [List.mem_cons, List.not_mem_nil, or_false]
    rintro rfl
    obtain ⟨x, hx, hxv⟩ := List.mem_map.mp hv
    exact hfresh x hx hxv
  · intro sub hsub
    rcases List.mem_append.mp hsub with h | h
    · exact hwf.2 sub h
    · rcases List.mem_cons.mp h with rfl | h
      · rfl
      · exact absurd h (List.not_mem_nil sub)

/-- Filtering a well-formed store keeps it well-formed. -/
theorem storeWF_filter {store : List Subscription} (hwf : StoreWF store)
    (q : Subscription → Bool) : StoreWF (store.filter q) := by
  constructor
  · exact ((List.filter_sublist store).map Subscription.webhookUrl).nodup hwf.1
  · intro sub hsub
    exact hwf.2 sub (List.mem_filter.mp hsub).1


/-- Equation for processSubscription when no record exists for the URL
and the save succeeds: a fresh record is appended. -/
theorem processSubscription_eq_new {store : List Subscription} {url : String}
    (hfind : findSubscriptionByWebhook store url = none)
    (hubOk : String → Bool) (now : String) (cids : List String) :
    processSubscription true hubOk now cids url store =
      { result :=
          { success := true, userKey := some (generateUserKey url),
            message := "Subscribed successfully", webhookUrl := url,
            newlySubscribedChannels :=
              if cids.isEmpty then none else some cids,
            resubscribedChannels := none, resubscriptionResults := none },
        store := store ++
          [({ userKey := generateUserKey url, webhookUrl := url,
              channelIds := cids, timestamp := now } : Subscription)],
        hubCalls := cids } := by
  simp [processSubscription, hfind, addSubscription, saveSubscriptions]

/-- Equation for processSubscription when no record exists and the save
fails: failure result, store unchanged. -/
theorem processSubscription_eq_new_fail {store : List Subscription}
    {url : String} (hfind : findSubscriptionByWebhook store url = none)
    (hubOk : String → Bool) (now : String) (cids : List String) :
    processSubscription false hubOk now cids url store =
      { result := subscribeFailure url, store := store, hubCalls := [] } := by
  simp [processSubscription, hfind, addSubscription, saveSubscriptions]

/-- Equation for processSubscription on a store decomposed at the
existing record for the URL, with a successful save: the record is
merged and replaced in place. -/
theorem processSubscription_eq_update {l1 l2 : List Subscription}
    {ex : Subscription} {url : String}
    (hfind : findSubscriptionByWebhook (l1 ++ ex :: l2) url = some ex)
    (hkeys : ∀ x ∈ l1, (x.userKey == ex.userKey) = false)
    (hubOk : String → Bool) (now : String) (cids : List String) :
    processSubscription true hubOk now cids url (l1 ++ ex :: l2) =
      (let newly := cids.filter fun id => !ex.channelIds.contains id
       let resub := cids.filter fun id => ex.channelIds.contains id
       { result :=
          { success := true, userKey := some ex.userKey,
            message :=
              if !newly.isEmpty && !resub.isEmpty then
                "Subscription updated with new channels and existing channels resubscribed"
              else if !newly.isEmpty then "Subscription updated successfully"
              else "All channels have been resubscribed",
            webhookUrl := url,
            newlySubscribedChannels :=
              if newly.isEmpty then none else some newly,
            resubscribedChannels :=
              if resub.isEmpty then none else some resub,
            resubscriptionResults :=
              if resub.isEmpty then none
              else some (subscribeToChannels hubOk resub) },
         store := l1 ++ { ex with
           channelIds := jsSetDedup (ex.channelIds ++ newly),
           timestamp := now } :: l2,
         hubCalls := newly ++ resub }) := by
  have hself : (ex.userKey == ex.userKey) = true := beq_iff_eq.mpr rfl
  simp only [processSubscription, hfind, updateSubscription_middle hkeys hself]
  simp

/-- Equation for processSubscription at an existing record when the save
fails: failure result, store unchanged. -/
theorem processSubscription_eq_update_fail {store : List Subscription}
    {ex : Subscription} {url : String}
    (hfind : findSubscriptionByWebhook store url = some ex)
    (hubOk : String → Bool) (now : String) (cids : List String) :
    processSubscription false hubOk now cids url store =
      { result := subscribeFailure url, store := store, hubCalls := [] } := by
  simp only [processSubscription, hfind, updateSubscription_false]
  simp

/-- Equation for processUnsubscription when no channels remain and the
save succeeds: the record is deleted from the collection. -/
theorem processUnsubscription_eq_delete {store : List Subscription}
    {sub : Subscription} {toUnsub : List String} {url now : String}
    (hrem : sub.channelIds.filter (fun id => !toUnsub.contains id) = [])
    (hubOk : String → Bool) :
    processUnsubscription true hubOk now toUnsub url sub store =
      { result :=
          { success := true,
            message := "Unsubscribed from all channels and removed subscription",
            webhookUrl := url, unsubscribedChannels := toUnsub,
            unsubscriptionResults := toUnsub.map (unsubscribeFromChannel hubOk),
            remainingChannels := some [] },
        store := store.filter (fun s => s.userKey != sub.userKey),
        hubCalls := toUnsub } := by
  have hremb :
      (sub.channelIds.filter (fun id => !toUnsub.contains id)).isEmpty = true :=
    List.isEmpty_iff.mpr hrem
  simp only [processUnsubscription, hremb, if_true, saveSubscriptions,
    getSubscriptions, hrem]
  simp

/-- Equation for processUnsubscription when no channels remain and the
save fails: failure result, store unchanged. -/
theorem processUnsubscription_eq_delete_fail {store : List Subscription}
    {sub : Subscription} {toUnsub : List String} {url now : String}
    (hrem : sub.channelIds.filter (fun id => !toUnsub.contains id) = [])
    (hubOk : String → Bool) :
    processUnsubscription false hubOk now toUnsub url sub store =
      { result :=
          { success := false,
            message := "Failed to update/remove subscription",
            webhookUrl := url, unsubscribedChannels := toUnsub,
            unsubscriptionResults := toUnsub.map (unsubscribeFromChannel hubOk),
            remainingChannels := none },
        store := store, hubCalls := toUnsub } := by
  have hremb :
      (sub.channelIds.filter (fun id => !toUnsub.contains id)).isEmpty = true :=
    List.isEmpty_iff.mpr hrem
  simp only [processUnsubscription, hremb, if_true, saveSubscriptions,
    getSubscriptions]
  simp

/-- Equation for processUnsubscription when channels remain, on a store
decomposed at the unique record carrying the key, with a successful
save: the record is updated in place. -/
theorem processUnsubscription_eq_update {l1 l2 : List Subscription}
    {sub : Subscription} {toUnsub : List String} {url now : String}
    (hkeys : ∀ x ∈ l1, (x.userKey == sub.userKey) = false)
    (hrem : sub.channelIds.filter (fun id => !toUnsub.contains id) ≠ [])
    (hubOk : String → Bool) :
    processUnsubscription true hubOk now toUnsub url sub (l1 ++ sub :: l2) =
      { result :=
          { success := true,
            message := "Unsubscribed from specified channels",
            webhookUrl := url, unsubscribedChannels := toUnsub,
            unsubscriptionResults := toUnsub.map (unsubscribeFromChannel hubOk),
            remainingChannels :=
              some (sub.channelIds.filter (fun id => !toUnsub.contains id)) },
        store := l1 ++ { sub with
          channelIds := sub.channelIds.filter (fun id => !toUnsub.contains id),
          timestamp := now } :: l2,
        hubCalls := toUnsub } := by
  have hself : (sub.userKey == sub.userKey) = true := beq_iff_eq.mpr rfl
  have hremb :
      (sub.channelIds.filter (fun id => !toUnsub.contains id)).isEmpty = false := by
    cases hb : (sub.channelIds.filter (fun id => !toUnsub.contains id)).isEmpty with
    | true => exact absurd (List.isEmpty_iff.mp hb) hrem
    | false => rfl
  simp only [processUnsubscription, hremb, Bool.false_eq_true, if_false,
    updateSubscription_middle hkeys hself]
  simp

/-- Equation for processUnsubscription when channels remain and the save
fails: failure result, store unchanged. -/
theorem processUnsubscription_eq_update_fail {store : List Subscription}
    {sub : Subscription} {toUnsub : List String} {url now : String}
    (hrem : sub.channelIds.filter (fun id => !toUnsub.contains id) ≠ [])
    (hubOk : String → Bool) :
    processUnsubscription false hubOk now toUnsub url sub store =
      { result :=
          { success := false,
            message := "Failed to update/remove subscription",
            webhookUrl := url, unsubscribedChannels := toUnsub,
            unsubscriptionResults := toUnsub.map (unsubscribeFromChannel hubOk),
            remainingChannels := none },
        store := store, hubCalls := toUnsub } := by
  have hremb :
      (sub.channelIds.filter (fun id => !toUnsub.contains id)).isEmpty = false := by
    cases hb : (sub.channelIds.filter (fun id => !toUnsub.contains id)).isEmpty with
    | true => exact absurd (List.isEmpty_iff.mp hb) hrem
    | false => rfl
  simp only [processUnsubscription, hremb, Bool.false_eq_true, if_false,
    updateSubscription_false]

/-- Subscribe reconciliation leaves every record for an untouched webhook
URL unchanged, in order. -/
theorem processSubscription_frame {store : List Subscription}
    {urls : List String} {url : String} (hwf : StoreWF store)
    (hmem : urls.contains url = true) (saveOk : Bool)
    (hubOk : String → Bool) (now : String) (cids : List String) :
    (processSubscription saveOk hubOk now cids url store).store.filter
        (fun r => !urls.contains r.webhookUrl) =
      store.filter (fun r => !urls.contains r.webhookUrl) := by
  have hmemp : url ∈ urls := contains_true_iff.mp hmem
  cases hfind : findSubscriptionByWebhook store url with
  | none =>
    cases saveOk with
    | true =>
      rw [processSubscription_eq_new hfind]
      simp [List.filter_append, hmemp]
    | false =>
      rw [processSubscription_eq_new_fail hfind]
  | some ex =>
    obtain ⟨l1, l2, heq, hsuburl, hsubkey, hl1u, hl2u, hl1k, hl2k⟩ :=
      store_decomp hwf hfind
    subst heq
    have hmem2 : ex.webhookUrl ∈ urls := by rw [hsuburl]; exact hmemp
    cases saveOk with
    | true =>
      rw [processSubscription_eq_update hfind hl1k]
      simp [List.filter_append, List.filter_cons, hmem2]
    | false =>
      rw [processSubscription_eq_update_fail hfind]

/-- Subscribe reconciliation preserves store well-formedness. -/
theorem processSubscription_wf {store : List Subscription} {url : String}
    (hwf : StoreWF store) (saveOk : Bool) (hubOk : String → Bool)
    (now : String) (cids : List String) :
    StoreWF (processSubscription saveOk hubOk now cids url store).store := by
  cases hfind : findSubscriptionByWebhook store url with
  | none =>
    cases saveOk with
    | true =>
      rw [processSubscription_eq_new hfind]
      exact storeWF_append_fresh hwf hfind cids now
    | false =>
      rw [processSubscription_eq_new_fail hfind]
      exact hwf
  | some ex =>
    obtain ⟨l1, l2, heq, hsuburl, hsubkey, hl1u, hl2u, hl1k, hl2k⟩ :=
      store_decomp hwf hfind
    subst heq
    cases saveOk with
    | true =>
      rw [processSubscription_eq_update hfind hl1k]
      exact storeWF_replace hwf rfl rfl
    | false =>
      rw [processSubscription_eq_update_fail hfind]
      exact hwf

/-- Unsubscribe reconciliation leaves every record for an untouched
webhook URL unchanged, in order. -/
theorem processUnsubscription_frame {store : List Subscription}
    {urls : List String} {url : String} {sub : Subscription}
    (hwf : StoreWF store)
    (hfind : findSubscriptionByWebhook store url = some sub)
    (hmem : urls.contains url = true) (saveOk : Bool)
    (hubOk : String → Bool) (now : String) (toUnsub : List String) :
    (processUnsubscription saveOk hubOk now toUnsub url sub store).store.filter
        (fun r => !urls.contains r.webhookUrl) =
      store.filter (fun r => !urls.contains r.webhookUrl) := by
  have hmemp : url ∈ urls := contains_true_iff.mp hmem
  obtain ⟨l1, l2, heq, hsuburl, hsubkey, hl1u, hl2u, hl1k, hl2k⟩ :=
    store_decomp hwf hfind
  subst heq
  have hmem2 : sub.webhookUrl ∈ urls := by rw [hsuburl]; exact hmemp
  by_cases hrem : sub.channelIds.filter (fun id => !toUnsub.contains id) = []
  · cases saveOk with
    | true =>
      rw [processUnsubscription_eq_delete hrem hubOk]
      simp only [List.filter_filter]
      refine List.filter_congr ?_
      intro x hx
      rcases List.mem_append.mp hx with hx1 | hx2
      · have hk := hl1k x hx1
        simp [bne, hk]
      · rcases List.mem_cons.mp hx2 with rfl | hx2
        · simp [hmem2]
        · have hk := hl2k x hx2
          simp [bne, hk]
    | false =>
      rw [processUnsubscription_eq_delete_fail hrem hubOk]
  · cases saveOk with
    | true =>
      rw [processUnsubscription_eq_update hl1k hrem hubOk]
      simp [List.filter_append, List.filter_cons, hmem2]
    | false =>
      rw [processUnsubscription_eq_update_fail hrem hubOk]

/-- Unsubscribe reconciliation preserves store well-formedness. -/
theorem processUnsubscription_wf {store : List Subscription} {url : String}
    {sub : Subscription} (hwf : StoreWF store)
    (hfind : findSubscriptionByWebhook store url = some sub) (saveOk : Bool)
    (hubOk : String → Bool) (now : String) (toUnsub : List String) :
    StoreWF (processUnsubscription saveOk hubOk now toUnsub url sub store).store := by
  obtain ⟨l1, l2, heq, hsuburl, hsubkey, hl1u, hl2u, hl1k, hl2k⟩ :=
    store_decomp hwf hfind
  subst heq
  by_cases hrem : sub.channelIds.filter (fun id => !toUnsub.contains id) = []
  · cases saveOk with
    | true =>
      rw [processUnsubscription_eq_delete hrem hubOk]
      exact storeWF_filter hwf _
    | false =>
      rw [processUnsubscription_eq_delete_fail hrem hubOk]
      exact hwf
  · cases saveOk with
    | true =>
      rw [processUnsubscription_eq_update hl1k hrem hubOk]
      exact storeWF_replace hwf rfl rfl
    | false =>
      rw [processUnsubscription_eq_update_fail hrem hubOk]
      exact hwf

/-- A list containing an explicit occurrence of a non-empty needle passes
the includes test. -/
theorem containsSub_decomp {needle : List Char} (hne : needle ≠ [])
    (A B : List Char) : containsSub needle (A ++ needle ++ B) = true := by
  induction A with
  | nil =>
    cases hn : needle with
    | nil => exact absurd hn hne
    | cons n ns =>
      subst hn
      simp only [List.nil_append, List.cons_append, containsSub, List.append_eq]
      have hpre : (n :: ns).isPrefixOf (n :: (ns ++ B)) = true := by
        rw [List.isPrefixOf_iff_prefix]
        exact ⟨B, by simp⟩
      rw [hpre]
      simp
  | cons a A ih =>
    simp only [List.cons_append, containsSub, List.append_eq]
    have ih2 : containsSub needle ((A ++ needle) ++ B) = true := by
      simpa using ih
    rw [ih2]
    simp

/-- Replacing at the first occurrence rewrites exactly that occurrence:
the prefix and suffix are untouched. -/
theorem replaceFirstSub_firstOcc {needle repl A B : List Char}
    (hne : needle ≠ [])
    (hfirst : ∀ A2 B2, A ++ needle ++ B = A2 ++ needle ++ B2 →
      A.length ≤ A2.length) :
    replaceFirstSub needle repl (A ++ needle ++ B) = A ++ repl ++ B := by
  induction A with
  | nil =>
    cases hn : needle with
    | nil => exact absurd hn hne
    | cons n ns =>
      subst hn
      simp only [List.nil_append, List.cons_append, replaceFirstSub,
        List.append_eq]
      have hpre : (n :: ns).isPrefixOf (n :: (ns ++ B)) = true := by
        rw [List.isPrefixOf_iff_prefix]
        exact ⟨B, by simp⟩
      rw [hpre]
      simp only [if_true]
      have hdrop : List.drop (n :: ns).length (n :: (ns ++ B)) = B := by
        have h := List.drop_left (n :: ns) B
        simpa using h
      rw [hdrop]
  | cons a A ih =>
    have hnotpre : needle.isPrefixOf (a :: (A ++ needle ++ B)) = false := by
      cases hp : needle.isPrefixOf (a :: (A ++ needle ++ B)) with
      | false => rfl
      | true =>
        rw [List.isPrefixOf_iff_prefix] at hp
        obtain ⟨C, hC⟩ := hp
        have hdec : (a :: A) ++ needle ++ B = [] ++ needle ++ C := by
          rw [List.nil_append, hC]
          simp
        have hlen := hfirst [] C (by simpa using hdec)
        simp at hlen
    have hfirst2 : ∀ A2 B2, A ++ needle ++ B = A2 ++ needle ++ B2 →
        A.length ≤ A2.length := by
      intro A2 B2 h
      have h2 : (a :: A) ++ needle ++ B = (a :: A2) ++ needle ++ B2 := by
        simp only [List.cons_append]
        exact congrArg (fun l => a :: l) h
      have hlen := hfirst (a :: A2) B2 (by simpa using h2)
      simpa using hlen
    have ihr := ih hfirst2
    simp only [List.cons_append, replaceFirstSub, List.append_eq]
    have hnotpre2 : needle.isPrefixOf (a :: ((A ++ needle) ++ B)) = false := by
      simpa using hnotpre
    rw [hnotpre2]
    simp only [Bool.false_eq_true, if_false]
    have ihr2 : replaceFirstSub needle repl ((A ++ needle) ++ B) =
        A ++ repl ++ B := by
      simpa using ihr
    rw [ihr2]

/-- C3 counterexample: the URL https://host/webhook-test-test contains
webhook-test, yet applying getProductionWebhookUrl once yields
https://host/webhook-test, on which isTestWebhook is still true — so
one application does not always produce a non-test URL. -/
theorem toProductionVariant_counterexample :
    isTestWebhook ("https://host/webhook-test-test") = true ∧
    getProductionWebhookUrl ("https://host/webhook-test-test") =
      some ("https://host/webhook-test") ∧
    isTestWebhook ("https://host/webhook-test") = true := by
  decide

/-- C3 amended: for every URL whose character list decomposes at the
first occurrence of webhook-test, getProductionWebhookUrl replaces
exactly that occurrence with webhook, leaving prefix and suffix
unchanged; the result passes isTestVariant negatively exactly when the
rewritten string no longer contains webhook-test (which can fail, as the
counterexample shows). -/
theorem toProductionVariant_first_occurrence (url : String) (A B : List Char)
    (hocc : FirstOccAt ("webhook-test".toList) A B url.toList) :
    getProductionWebhookUrl url =
      some (String.mk (A ++ ("webhook".toList) ++ B)) ∧
    (isTestWebhook (String.mk (A ++ ("webhook".toList) ++ B)) = false ↔
      containsSub ("webhook-test".toList)
        (A ++ ("webhook".toList) ++ B) = false) := by
  obtain ⟨hdecomp, hfirst⟩ := hocc
  have hneedle : ("webhook-test".toList : List Char) ≠ [] := by decide
  have hcontains : strIncludes url ("webhook-test") = true := by
    unfold strIncludes
    rw [hdecomp]
    exact containsSub_decomp hneedle A B
  constructor
  · unfold getProductionWebhookUrl
    rw [hcontains, if_pos rfl]
    unfold strReplaceFirst
    have hlist : replaceFirstSub ("webhook-test".toList) ("webhook".toList)
        url.toList = A ++ ("webhook".toList) ++ B := by
      rw [hdecomp]
      exact replaceFirstSub_firstOcc hneedle
        (fun A2 B2 h => hfirst A2 B2 (hdecomp.trans h))
    rw [hlist]
  · exact Iff.rfl

/-- C3 witness at the concrete URL webhook-test/x, whose first occurrence
has the empty prefix. -/
theorem toProductionVariant_first_occurrence_witness :
    getProductionWebhookUrl ("webhook-test/x") =
      some (String.mk (([] : List Char) ++ ("webhook".toList) ++ ("/x".toList))) ∧
    (isTestWebhook
        (String.mk (([] : List Char) ++ ("webhook".toList) ++ ("/x".toList))) = false ↔
      containsSub ("webhook-test".toList)
        (([] : List Char) ++ ("webhook".toList) ++ ("/x".toList)) = false) :=
  toProductionVariant_first_occurrence ("webhook-test/x") [] ("/x".toList)
    ⟨by decide, fun A2 _ _ => Nat.zero_le A2.length⟩

/-- C8: a verification request missing any of mode, topic or challenge
(absent or empty, as in the JavaScript falsiness test) is answered with
the 400 validation reply; when all three are present the reply is status
200 with body exactly the challenge string, for every userKey — the
handler consults no stored subscription, so every syntactically complete
request is accepted. -/
theorem verification_challenge_echo (userKey : String)
    (q : VerificationQuery) :
    ((truthy q.mode = false ∨ truthy q.topic = false ∨
        truthy q.challenge = false) →
      handleVerification userKey q =
        { status := 400, body := "Missing required verification parameters" })
    ∧ (∀ c : String, q.challenge = some c → truthy q.mode = true →
        truthy q.topic = true → truthy q.challenge = true →
        handleVerification userKey q = { status := 200, body := c }) := by
  constructor
  · intro h
    unfold handleVerification
    rcases h with h | h | h <;> simp [h]
  · intro c hc hm ht hch
    unfold handleVerification
    rw [hc] at hch
    simp [hm, ht, hch, hc]

/-- C8 witness: a complete verification request echoes its challenge. -/
theorem verification_challenge_echo_witness :
    handleVerification ("k1")
      { mode := some ("subscribe"), topic := some ("topic-url"),
        challenge := some ("challenge-42"), leaseSeconds := none } =
      { status := 200, body := "challenge-42" } :=
  (verification_challenge_echo ("k1")
      { mode := some ("subscribe"), topic := some ("topic-url"),
        challenge := some ("challenge-42"), leaseSeconds := none }).2
    ("challenge-42") rfl (by decide) (by decide) (by decide)

/-- C9 counterexample: for a test-variant record, the handler makes both
dispatches, but the payload POSTed to the counterpart differs from the
payload POSTed to the record webhookUrl — each forwardToWebhook call
stamps its payload with its own clock reading, so the counterpart does
not receive an identical payload. -/
theorem notification_counterpart_timestamp_counterexample :
    (handleNotification (fun _ => true) ("t1") ("t2") ("k9")
        (some vidSample) [recN8nTest]).dispatches.map Prod.snd =
      [buildPayload ("t1") vidSample, buildPayload ("t2") vidSample]
    ∧ buildPayload ("t2") vidSample ≠ buildPayload ("t1") vidSample := by
  decide

/-- C9 amended: for every resolved, parsed notification the normalized
payload is POSTed to the record webhookUrl; when that URL has a
counterpart under the substring convention (either direction) the same
payload up to its own dispatch timestamp is also POSTed to the
counterpart, with no hypothesis about any record for the counterpart,
and each dispatch reports its own transport outcome, so failure of one
cannot prevent the other. -/
theorem notification_dual_dispatch (store : List Subscription)
    (sub : Subscription) (userKey now1 now2 : String) (v : VideoInfo)
    (postOk : String → Bool)
    (hfound : findSubscriptionByUserKey store userKey = some sub) :
    (isN8nWebhook sub.webhookUrl = false →
      handleNotification postOk now1 now2 userKey (some v) store =
        { status := 200, message := "Notification processed and forwarded",
          primaryResult :=
            some { success := postOk sub.webhookUrl, webhookUrl := sub.webhookUrl },
          counterpartResult := none,
          dispatches := [(sub.webhookUrl, buildPayload now1 v)] })
    ∧ (isN8nWebhook sub.webhookUrl = true →
      (let counterpartUrl :=
        (if strIncludes sub.webhookUrl ("webhook-test") then
          strReplaceFirst sub.webhookUrl ("webhook-test") ("webhook")
         else strReplaceFirst sub.webhookUrl ("webhook") ("webhook-test"))
       handleNotification postOk now1 now2 userKey (some v) store =
        { status := 200, message := "Notification processed and forwarded",
          primaryResult :=
            some { success := postOk sub.webhookUrl, webhookUrl := sub.webhookUrl },
          counterpartResult :=
            some { success := postOk counterpartUrl, webhookUrl := counterpartUrl },
          dispatches := [(sub.webhookUrl, buildPayload now1 v),
            (counterpartUrl, buildPayload now2 v)] }))
    ∧ buildPayload now2 v = { buildPayload now1 v with timestamp := now2 } := by
  refine ⟨?_, ?_, rfl⟩
  · intro hn
    have hor : (strIncludes sub.webhookUrl ("webhook-test")
        || strIncludes sub.webhookUrl ("webhook")) = false := hn
    simp only [handleNotification, hfound, hor, Bool.false_eq_true, if_false,
      forwardToWebhook]
  · intro hn
    have hor : (strIncludes sub.webhookUrl ("webhook-test")
        || strIncludes sub.webhookUrl ("webhook")) = true := hn
    simp only [handleNotification, hfound, hor, if_pos rfl, forwardToWebhook]
    simp

/-- C9 witness at a concrete test-variant record. -/
theorem notification_dual_dispatch_witness :
    (isN8nWebhook recN8nTest.webhookUrl = false →
      handleNotification (fun _ => true) ("t1") ("t2") ("k9")
          (some vidSample) [recN8nTest] =
        { status := 200, message := "Notification processed and forwarded",
          primaryResult :=
            some { success := true, webhookUrl := recN8nTest.webhookUrl },
          counterpartResult := none,
          dispatches := [(recN8nTest.webhookUrl, buildPayload ("t1") vidSample)] })
    ∧ (isN8nWebhook recN8nTest.webhookUrl = true →
      (let counterpartUrl :=
        (if strIncludes recN8nTest.webhookUrl ("webhook-test") then
          strReplaceFirst recN8nTest.webhookUrl ("webhook-test") ("webhook")
         else strReplaceFirst recN8nTest.webhookUrl ("webhook") ("webhook-test"))
       handleNotification (fun _ => true) ("t1") ("t2") ("k9")
          (some vidSample) [recN8nTest] =
        { status := 200, message := "Notification processed and forwarded",
          primaryResult :=
            some { success := true, webhookUrl := recN8nTest.webhookUrl },
          counterpartResult :=
            some { success := true, webhookUrl := counterpartUrl },
          dispatches := [(recN8nTest.webhookUrl, buildPayload ("t1") vidSample),
            (counterpartUrl, buildPayload ("t2") vidSample)] }))
    ∧ buildPayload ("t2") vidSample =
        { buildPayload ("t1") vidSample with timestamp := "t2" } :=
  notification_dual_dispatch [recN8nTest] recN8nTest ("k9") ("t1") ("t2")
    vidSample (fun _ => true) (by decide)

/-- Channel lists already fully contained in a set filter trivially. -/
theorem filter_partition_all {cids ch : List String}
    (h : ∀ id ∈ cids, ch.contains id = true) :
    cids.filter (fun id => !ch.contains id) = [] ∧
      cids.filter (fun id => ch.contains id) = cids := by
  constructor
  · rw [List.filter_eq_nil_iff]
    intro a ha
    have hm := contains_true_iff.mp (h a ha)
    simp [hm]
  · rw [List.filter_eq_self]
    intro a ha
    exact h a ha

/-- C5 counterexample: on an empty store, subscribing one new channel
whose hub call fails produces exactly the same outcome (result, store
and hub trace) as when the hub call succeeds, and the result is
successful — so the hub-call failure for a newly subscribed channel is
not reported back to the caller in any form. -/
theorem new_channel_hub_failure_counterexample :
    processSubscription true (fun _ => false) ("t1")
        (["UC_x5XG1OV2P6uZZ5FSM9Ttw"]) ("https://example.com/hook") [] =
      processSubscription true (fun _ => true) ("t1")
        (["UC_x5XG1OV2P6uZZ5FSM9Ttw"]) ("https://example.com/hook") [] ∧
    (processSubscription true (fun _ => false) ("t1")
        (["UC_x5XG1OV2P6uZZ5FSM9Ttw"]) ("https://example.com/hook") []).result.success
      = true := by
  decide

/-- C5 amended: with a successful store write the result is successful
whatever the hub outcomes; with a failing store write the whole
operation fails; hub outcomes for renewed channels — failures included —
are reported back in resubscriptionResults; but when a fresh record is
created the outcome is entirely independent of the hub oracle, so
new-channel hub failures are invisible to the caller. -/
theorem subscribe_store_success_hub_failures (store : List Subscription)
    (cids : List String) (url now : String) (hubOk hubOk2 : String → Bool)
    (hwf : StoreWF store) :
    (processSubscription true hubOk now cids url store).result.success = true
    ∧ (processSubscription false hubOk now cids url store).result.success = false
    ∧ (∀ ex, findSubscriptionByWebhook store url = some ex →
        cids.filter (fun id => ex.channelIds.contains id) ≠ [] →
        (processSubscription true hubOk now cids url store).result.resubscriptionResults
          = some ((cids.filter (fun id => ex.channelIds.contains id)).map
              (fun id => { success := hubOk id, channelId := id })))
    ∧ (findSubscriptionByWebhook store url = none →
        processSubscription true hubOk now cids url store =
          processSubscription true hubOk2 now cids url store) := by
  refine ⟨?_, ?_, ?_, ?_⟩
  · cases hfind : findSubscriptionByWebhook store url with
    | none => rw [processSubscription_eq_new hfind]
    | some ex =>
      obtain ⟨l1, l2, heq, hsuburl, hsubkey, hl1u, hl2u, hl1k, hl2k⟩ :=
        store_decomp hwf hfind
      subst heq
      rw [processSubscription_eq_update hfind hl1k]
  · cases hfind : findSubscriptionByWebhook store url with
    | none =>
      rw [processSubscription_eq_new_fail hfind]
      rfl
    | some ex =>
      rw [processSubscription_eq_update_fail hfind]
      rfl
  · intro ex hfind hres
    obtain ⟨l1, l2, heq, hsuburl, hsubkey, hl1u, hl2u, hl1k, hl2k⟩ :=
      store_decomp hwf hfind
    subst heq
    rw [processSubscription_eq_update hfind hl1k]
    have hresb : (cids.filter (fun id => ex.channelIds.contains id)).isEmpty = false := by
      cases hb : (cids.filter (fun id => ex.channelIds.contains id)).isEmpty with
      | true => exact absurd (List.isEmpty_iff.mp hb) hres
      | false => rfl
    have hex : ∃ x ∈ cids, x ∈ ex.channelIds := by
      obtain ⟨x, hx⟩ := List.exists_mem_of_ne_nil _ hres
      have hx2 := List.mem_filter.mp hx
      exact ⟨x, hx2.1, contains_true_iff.mp hx2.2⟩
    simp [hresb, hex, subscribeToChannels, subscribeToChannel]
  · intro hfind
    rw [processSubscription_eq_new hfind, processSubscription_eq_new hfind]

/-- C5 witness: a renewal whose hub call fails is reported back. -/
theorem subscribe_store_success_hub_failures_witness :
    (processSubscription true (fun _ => false) ("t2")
        (["UC_x5XG1OV2P6uZZ5FSM9Ttw"]) ("https://example.com/hook")
        [{ userKey := generateUserKey ("https://example.com/hook"),
           webhookUrl := "https://example.com/hook",
           channelIds := ["UC_x5XG1OV2P6uZZ5FSM9Ttw"],
           timestamp := "t1" }]).result.success = true
    ∧ (processSubscription false (fun _ => false) ("t2")
        (["UC_x5XG1OV2P6uZZ5FSM9Ttw"]) ("https://example.com/hook")
        [{ userKey := generateUserKey ("https://example.com/hook"),
           webhookUrl := "https://example.com/hook",
           channelIds := ["UC_x5XG1OV2P6uZZ5FSM9Ttw"],
           timestamp := "t1" }]).result.success = false
    ∧ (processSubscription true (fun _ => false) ("t2")
        (["UC_x5XG1OV2P6uZZ5FSM9Ttw"]) ("https://example.com/hook")
        [{ userKey := generateUserKey ("https://example.com/hook"),
           webhookUrl := "https://example.com/hook",
           channelIds := ["UC_x5XG1OV2P6uZZ5FSM9Ttw"],
           timestamp := "t1" }]).result.resubscriptionResults =
      some [{ success := false, channelId := "UC_x5XG1OV2P6uZZ5FSM9Ttw" }] := by
  have h := subscribe_store_success_hub_failures
    [{ userKey := generateUserKey ("https://example.com/hook"),
       webhookUrl := "https://example.com/hook",
       channelIds := ["UC_x5XG1OV2P6uZZ5FSM9Ttw"],
       timestamp := "t1" }]
    (["UC_x5XG1OV2P6uZZ5FSM9Ttw"]) ("https://example.com/hook") ("t2")
    (fun _ => false) (fun _ => false)
    ⟨by decide, by decide⟩
  refine ⟨h.1, h.2.1, ?_⟩
  have h3 := h.2.2.1
    { userKey := generateUserKey ("https://example.com/hook"),
      webhookUrl := "https://example.com/hook",
      channelIds := ["UC_x5XG1OV2P6uZZ5FSM9Ttw"],
      timestamp := "t1" } (by decide) (by decide)
  rw [h3]
  decide

/-- C6: the subscribe result message is exactly the fixed decision table
over (existing record?, newly-subscribed non-empty?, renewed non-empty?):
no record gives Subscribed successfully; both sets non-empty gives the
combined update message; only new channels gives Subscription updated
successfully; only renewed channels gives All channels have been
resubscribed. -/
theorem subscribe_message_table (store : List Subscription)
    (cids : List String) (url now : String) (hubOk : String → Bool)
    (hwf : StoreWF store) :
    (findSubscriptionByWebhook store url = none →
      (processSubscription true hubOk now cids url store).result.message =
        "Subscribed successfully")
    ∧ (∀ ex, findSubscriptionByWebhook store url = some ex →
        ((cids.filter (fun id => !ex.channelIds.contains id) ≠ [] →
          cids.filter (fun id => ex.channelIds.contains id) ≠ [] →
          (processSubscription true hubOk now cids url store).result.message =
            "Subscription updated with new channels and existing channels resubscribed")
        ∧ (cids.filter (fun id => !ex.channelIds.contains id) ≠ [] →
          cids.filter (fun id => ex.channelIds.contains id) = [] →
          (processSubscription true hubOk now cids url store).result.message =
            "Subscription updated successfully")
        ∧ (cids.filter (fun id => !ex.channelIds.contains id) = [] →
          cids.filter (fun id => ex.channelIds.contains id) ≠ [] →
          (processSubscription true hubOk now cids url store).result.message =
            "All channels have been resubscribed"))) := by
  constructor
  · intro hfind
    rw [processSubscription_eq_new hfind]
  · intro ex hfind
    obtain ⟨l1, l2, heq, hsuburl, hsubkey, hl1u, hl2u, hl1k, hl2k⟩ :=
      store_decomp hwf hfind
    subst heq
    rw [processSubscription_eq_update hfind hl1k]
    dsimp only
    have hbool : ∀ l : List String, l ≠ [] → l.isEmpty = false := by
      intro l hl
      cases hb : l.isEmpty with
      | true => exact absurd (List.isEmpty_iff.mp hb) hl
      | false => rfl
    refine ⟨?_, ?_, ?_⟩
    · intro hnew hres
      rw [hbool _ hnew, hbool _ hres]
      simp
    · intro hnew hres
      have hresb : (cids.filter (fun id => ex.channelIds.contains id)).isEmpty = true :=
        List.isEmpty_iff.mpr hres
      rw [hbool _ hnew, hresb]
      simp
    · intro hnew hres
      have hnewb : (cids.filter (fun id => !ex.channelIds.contains id)).isEmpty = true :=
        List.isEmpty_iff.mpr hnew
      rw [hnewb]
      simp

/-- C6 witness: Scenario A on the empty store. -/
theorem subscribe_message_table_witness :
    (processSubscription true (fun _ => true) ("t1")
        (["UC_x5XG1OV2P6uZZ5FSM9Ttw"]) ("https://example.com/hook") []).result.message
      = "Subscribed successfully" :=
  (subscribe_message_table [] (["UC_x5XG1OV2P6uZZ5FSM9Ttw"])
      ("https://example.com/hook") ("t1") (fun _ => true)
      ⟨List.nodup_nil, by simp⟩).1 rfl

/-- In a well-formed store with no record for a URL, no record carries
the key derived from that URL. -/
theorem keys_fresh_of_not_found {store : List Subscription} {url : String}
    (hwf : StoreWF store)
    (hnone : findSubscriptionByWebhook store url = none) :
    ∀ x ∈ store, (x.userKey == generateUserKey url) = false := by
  intro x hx
  rw [beq_eq_false_iff_ne]
  intro hk
  have hkey := hwf.2 x hx
  have hxu : x.webhookUrl = url := generateUserKey_inj (hkey.symm.trans hk)
  have hfind := List.find?_eq_none.mp hnone x hx
  rw [hxu] at hfind
  simp at hfind

/-- With no record for a URL, every stored record has a different URL. -/
theorem urls_ne_of_not_found {store : List Subscription} {url : String}
    (hnone : findSubscriptionByWebhook store url = none) :
    ∀ x ∈ store, (x.webhookUrl == url) = false := by
  intro x hx
  have h := List.find?_eq_none.mp hnone x hx
  simpa using h

/-- C1: subscribe-reconcile is idempotent on a well-formed store: the
first call returns a userKey, the second call with the same channels and
URL returns the same userKey, classifies every requested channel as
renewed and none as newly subscribed, and the record reached by the URL
holds the same channel set after either call. -/
theorem subscribe_reconcile_idempotent (store : List Subscription)
    (cids : List String) (url now1 now2 : String)
    (hub1 hub2 : String → Bool) (hwf : StoreWF store) (hne : cids ≠ [])
    (_hvalid : ∀ id ∈ cids, isValidYouTubeChannelId id = true) :
    (processSubscription true hub1 now1 cids url store).result.userKey ≠ none
    ∧ (processSubscription true hub2 now2 cids url
          (processSubscription true hub1 now1 cids url store).store).result.userKey
        = (processSubscription true hub1 now1 cids url store).result.userKey
    ∧ (processSubscription true hub2 now2 cids url
          (processSubscription true hub1 now1 cids url store).store).result.newlySubscribedChannels
        = none
    ∧ (processSubscription true hub2 now2 cids url
          (processSubscription true hub1 now1 cids url store).store).result.resubscribedChannels
        = some cids
    ∧ ∃ rec1 rec2,
        findSubscriptionByWebhook
            (processSubscription true hub1 now1 cids url store).store url = some rec1
        ∧ findSubscriptionByWebhook
            (processSubscription true hub2 now2 cids url
              (processSubscription true hub1 now1 cids url store).store).store url
          = some rec2
        ∧ ∀ c, (c ∈ rec2.channelIds ↔ c ∈ rec1.channelIds) := by
  have hcne : cids.isEmpty = false := by
    cases hb : cids.isEmpty with
    | true => exact absurd (List.isEmpty_iff.mp hb) hne
    | false => rfl
  cases hfind : findSubscriptionByWebhook store url with
  | none =>
    have hfresh := keys_fresh_of_not_found hwf hfind
    have hurls := urls_ne_of_not_found hfind
    rw [processSubscription_eq_new hfind]
    dsimp only
    have hfind2 : findSubscriptionByWebhook
        (store ++
          [({ userKey := generateUserKey url, webhookUrl := url,
              channelIds := cids, timestamp := now1 } : Subscription)]) url =
        some ({ userKey := generateUserKey url, webhookUrl := url,
                channelIds := cids, timestamp := now1 } : Subscription) := by
      unfold findSubscriptionByWebhook
      exact find?_middle _ [] hurls (beq_iff_eq.mpr rfl)
    have hkeys2 : ∀ x ∈ store,
        (x.userKey == ({ userKey := generateUserKey url, webhookUrl := url,
                         channelIds := cids,
                         timestamp := now1 } : Subscription).userKey) = false :=
      hfresh
    rw [processSubscription_eq_update hfind2 hkeys2]
    dsimp only
    have hpart := @filter_partition_all cids cids
      (fun id hid => contains_true_iff.mpr hid)
    refine ⟨by simp, rfl, ?_, ?_, ?_⟩
    · rw [hpart.1]
      simp
    · rw [hpart.2, hcne]
      simp
    · refine ⟨_, _, hfind2,
        find?_middle _ [] hurls (beq_iff_eq.mpr rfl), ?_⟩
      intro c
      dsimp only
      rw [hpart.1, List.append_nil]
      exact mem_jsSetDedup
  | some ex =>
    obtain ⟨l1, l2, heq, hsuburl, hsubkey, hl1u, hl2u, hl1k, hl2k⟩ :=
      store_decomp hwf hfind
    subst heq
    rw [processSubscription_eq_update hfind hl1k]
    dsimp only
    have hfind2 : findSubscriptionByWebhook
        (l1 ++
          ({ userKey := ex.userKey, webhookUrl := ex.webhookUrl,
             channelIds := jsSetDedup (ex.channelIds ++
               cids.filter (fun id => !ex.channelIds.contains id)),
             timestamp := now1 } : Subscription) :: l2) url =
        some ({ userKey := ex.userKey, webhookUrl := ex.webhookUrl,
                channelIds := jsSetDedup (ex.channelIds ++
                  cids.filter (fun id => !ex.channelIds.contains id)),
                timestamp := now1 } : Subscription) := by
      unfold findSubscriptionByWebhook
      exact find?_middle _ l2 hl1u (beq_iff_eq.mpr hsuburl)
    have hkeys2 : ∀ x ∈ l1,
        (x.userKey == ({ userKey := ex.userKey, webhookUrl := ex.webhookUrl,
                         channelIds := jsSetDedup (ex.channelIds ++
                           cids.filter (fun id => !ex.channelIds.contains id)),
                         timestamp := now1 } : Subscription).userKey) = false :=
      hl1k
    rw [processSubscription_eq_update hfind2 hkeys2]
    dsimp only
    have hmemall : ∀ id ∈ cids,
        (jsSetDedup (ex.channelIds ++
          cids.filter (fun id => !ex.channelIds.contains id))).contains id = true := by
      intro id hid
      rw [contains_true_iff, mem_jsSetDedup, List.mem_append]
      cases hc : ex.channelIds.contains id with
      | true => exact Or.inl (contains_true_iff.mp hc)
      | false =>
        refine Or.inr (List.mem_filter.mpr ⟨hid, ?_⟩)
        rw [hc]
        rfl
    have hpart := filter_partition_all hmemall
    refine ⟨by simp, rfl, ?_, ?_, ?_⟩
    · rw [hpart.1]
      simp
    · rw [hpart.2, hcne]
      simp
    · refine ⟨_, _, hfind2,
        find?_middle _ l2 hl1u (beq_iff_eq.mpr hsuburl), ?_⟩
      intro c
      dsimp only
      rw [hpart.1, List.append_nil]
      exact mem_jsSetDedup

/-- C1 witness for Scenario A followed by Scenario B. -/
theorem subscribe_reconcile_idempotent_witness :
    (processSubscription true (fun _ => true) ("t1")
          (["UC_x5XG1OV2P6uZZ5FSM9Ttw"]) ("https://example.com/hook") []).result.userKey ≠ none
    ∧ (processSubscription true (fun _ => true) ("t2")
          (["UC_x5XG1OV2P6uZZ5FSM9Ttw"]) ("https://example.com/hook")
          (processSubscription true (fun _ => true) ("t1")
          (["UC_x5XG1OV2P6uZZ5FSM9Ttw"]) ("https://example.com/hook") []).store).result.userKey
        = (processSubscription true (fun _ => true) ("t1")
          (["UC_x5XG1OV2P6uZZ5FSM9Ttw"]) ("https://example.com/hook") []).result.userKey
    ∧ (processSubscription true (fun _ => true) ("t2")
          (["UC_x5XG1OV2P6uZZ5FSM9Ttw"]) ("https://example.com/hook")
          (processSubscription true (fun _ => true) ("t1")
          (["UC_x5XG1OV2P6uZZ5FSM9Ttw"]) ("https://example.com/hook") []).store).result.newlySubscribedChannels = none
    ∧ (processSubscription true (fun _ => true) ("t2")
          (["UC_x5XG1OV2P6uZZ5FSM9Ttw"]) ("https://example.com/hook")
          (processSubscription true (fun _ => true) ("t1")
          (["UC_x5XG1OV2P6uZZ5FSM9Ttw"]) ("https://example.com/hook") []).store).result.resubscribedChannels
        = some (["UC_x5XG1OV2P6uZZ5FSM9Ttw"])
    ∧ ∃ rec1 rec2,
        findSubscriptionByWebhook
            (processSubscription true (fun _ => true) ("t1")
          (["UC_x5XG1OV2P6uZZ5FSM9Ttw"]) ("https://example.com/hook") []).store ("https://example.com/hook") = some rec1
        ∧ findSubscriptionByWebhook
            (processSubscription true (fun _ => true) ("t2")
          (["UC_x5XG1OV2P6uZZ5FSM9Ttw"]) ("https://example.com/hook")
          (processSubscription true (fun _ => true) ("t1")
          (["UC_x5XG1OV2P6uZZ5FSM9Ttw"]) ("https://example.com/hook") []).store).store ("https://example.com/hook") = some rec2
        ∧ ∀ c, (c ∈ rec2.channelIds ↔ c ∈ rec1.channelIds) :=
  subscribe_reconcile_idempotent [] (["UC_x5XG1OV2P6uZZ5FSM9Ttw"])
    ("https://example.com/hook") ("t1") ("t2") (fun _ => true) (fun _ => true)
    ⟨List.nodup_nil, by simp⟩ (by decide) (by decide)

/-- C2: a record never survives with an empty channel list: when the
requested channels cover the whole record (as with allChannels=true,
which passes the full channel list) the record is deleted and a lookup
by its webhook URL finds nothing; and whatever is removed, every record
still stored keeps a non-empty channel list. -/
theorem unsubscribe_empty_deletes_record (store : List Subscription)
    (sub : Subscription) (toUnsub : List String) (url now : String)
    (hubOk : String → Bool) (hwf : StoreWF store)
    (hfound : findSubscriptionByWebhook store url = some sub)
    (hinv : ∀ r ∈ store, r.channelIds ≠ []) :
    ((∀ c ∈ sub.channelIds, toUnsub.contains c = true) →
      findSubscriptionByWebhook
        (processUnsubscription true hubOk now toUnsub url sub store).store url
        = none)
    ∧ (∀ r ∈ (processUnsubscription true hubOk now toUnsub url sub store).store,
        r.channelIds ≠ []) := by
  obtain ⟨l1, l2, heq, hsuburl, hsubkey, hl1u, hl2u, hl1k, hl2k⟩ :=
    store_decomp hwf hfound
  subst heq
  constructor
  · intro hcov
    have hrem : sub.channelIds.filter (fun id => !toUnsub.contains id) = [] := by
      rw [List.filter_eq_nil_iff]
      intro a ha
      rw [hcov a ha]
      simp
    rw [processUnsubscription_eq_delete hrem hubOk]
    dsimp only
    unfold findSubscriptionByWebhook
    rw [List.find?_eq_none]
    intro x hx
    have hx2 := List.mem_filter.mp hx
    rcases List.mem_append.mp hx2.1 with hx1 | hxc
    · have := hl1u x hx1
      simp [this]
    · rcases List.mem_cons.mp hxc with rfl | hx1
      · have := hx2.2
        simp [bne] at this
      · have := hl2u x hx1
        simp [this]
  · by_cases hrem : sub.channelIds.filter (fun id => !toUnsub.contains id) = []
    · rw [processUnsubscription_eq_delete hrem hubOk]
      dsimp only
      intro r hr
      exact hinv r (List.mem_filter.mp hr).1
    · rw [processUnsubscription_eq_update hl1k hrem hubOk]
      dsimp only
      intro r hr
      rcases List.mem_append.mp hr with hr1 | hrc
      · exact hinv r (List.mem_append.mpr (Or.inl hr1))
      · rcases List.mem_cons.mp hrc with rfl | hr1
        · exact hrem
        · exact hinv r
            (List.mem_append.mpr (Or.inr (List.mem_cons.mpr (Or.inr hr1))))

/-- C7: unsubscribing a strict, non-empty subset of a record's channels
leaves a record whose channelIds is the original list minus the removed
set, order preserved, and that remainder is non-empty; the result is
successful and reports the remainder. -/
theorem partial_unsubscribe_law (store : List Subscription)
    (sub : Subscription) (S : List String) (url now : String)
    (hubOk : String → Bool) (hwf : StoreWF store)
    (hfound : findSubscriptionByWebhook store url = some sub)
    (_hsubset : ∀ c ∈ S, sub.channelIds.contains c = true)
    (hstrict : ∃ c ∈ sub.channelIds, S.contains c = false) :
    (processUnsubscription true hubOk now S url sub store).result.success = true
    ∧ sub.channelIds.filter (fun c => !S.contains c) ≠ []
    ∧ findSubscriptionByWebhook
        (processUnsubscription true hubOk now S url sub store).store url =
      some { sub with
             channelIds := sub.channelIds.filter (fun c => !S.contains c),
             timestamp := now }
    ∧ (processUnsubscription true hubOk now S url sub store).result.remainingChannels
      = some (sub.channelIds.filter (fun c => !S.contains c))
    ∧ ∀ c, (c ∈ sub.channelIds.filter (fun c => !S.contains c) ↔
        (c ∈ sub.channelIds ∧ c ∉ S)) := by
  obtain ⟨l1, l2, heq, hsuburl, hsubkey, hl1u, hl2u, hl1k, hl2k⟩ :=
    store_decomp hwf hfound
  subst heq
  have hrem : sub.channelIds.filter (fun c => !S.contains c) ≠ [] := by
    obtain ⟨c, hc, hcS⟩ := hstrict
    have hmem : c ∈ sub.channelIds.filter (fun c => !S.contains c) :=
      List.mem_filter.mpr ⟨hc, by rw [hcS]; rfl⟩
    exact List.ne_nil_of_mem hmem
  rw [processUnsubscription_eq_update hl1k hrem hubOk]
  dsimp only
  refine ⟨rfl, hrem, ?_, rfl, ?_⟩
  · unfold findSubscriptionByWebhook
    exact find?_middle _ l2 hl1u (beq_iff_eq.mpr hsuburl)
  · intro c
    rw [List.mem_filter]
    constructor
    · rintro ⟨h1, h2⟩
      refine ⟨h1, ?_⟩
      rw [Bool.not_eq_true'] at h2
      exact contains_false_iff.mp h2
    · rintro ⟨h1, h2⟩
      refine ⟨h1, ?_⟩
      rw [contains_false_iff.mpr h2]
      rfl

/-- C2 witness: removing the only channel of a one-record store deletes
the record and empties no stored channel list. -/
theorem unsubscribe_empty_deletes_record_witness :
    ((∀ c ∈ recHookA.channelIds,
        (["UC_x5XG1OV2P6uZZ5FSM9Ttw"] : List String).contains c = true) →
      findSubscriptionByWebhook
        (processUnsubscription true (fun _ => true) ("t2")
          (["UC_x5XG1OV2P6uZZ5FSM9Ttw"]) ("https://example.com/hook")
          recHookA [recHookA]).store ("https://example.com/hook") = none)
    ∧ (∀ r ∈ (processUnsubscription true (fun _ => true) ("t2")
          (["UC_x5XG1OV2P6uZZ5FSM9Ttw"]) ("https://example.com/hook")
          recHookA [recHookA]).store, r.channelIds ≠ []) :=
  unsubscribe_empty_deletes_record [recHookA] recHookA
    (["UC_x5XG1OV2P6uZZ5FSM9Ttw"]) ("https://example.com/hook") ("t2")
    (fun _ => true) ⟨by decide, by decide⟩ (by decide) (by decide)

/-- C7 witness: removing one of two channels keeps the other. -/
theorem partial_unsubscribe_law_witness :
    (processUnsubscription true (fun _ => true) ("t2")
        (["UC_x5XG1OV2P6uZZ5FSM9Ttw"]) ("https://example.com/hook")
        recHookAB [recHookAB]).result.success = true
    ∧ recHookAB.channelIds.filter
        (fun c => !(["UC_x5XG1OV2P6uZZ5FSM9Ttw"] : List String).contains c) ≠ []
    ∧ findSubscriptionByWebhook
        (processUnsubscription true (fun _ => true) ("t2")
          (["UC_x5XG1OV2P6uZZ5FSM9Ttw"]) ("https://example.com/hook")
          recHookAB [recHookAB]).store ("https://example.com/hook") =
      some { recHookAB with
             channelIds := recHookAB.channelIds.filter
               (fun c => !(["UC_x5XG1OV2P6uZZ5FSM9Ttw"] : List String).contains c),
             timestamp := "t2" }
    ∧ (processUnsubscription true (fun _ => true) ("t2")
        (["UC_x5XG1OV2P6uZZ5FSM9Ttw"]) ("https://example.com/hook")
        recHookAB [recHookAB]).result.remainingChannels =
      some (recHookAB.channelIds.filter
        (fun c => !(["UC_x5XG1OV2P6uZZ5FSM9Ttw"] : List String).contains c))
    ∧ ∀ c, (c ∈ recHookAB.channelIds.filter
          (fun c => !(["UC_x5XG1OV2P6uZZ5FSM9Ttw"] : List String).contains c) ↔
        (c ∈ recHookAB.channelIds ∧
          c ∉ (["UC_x5XG1OV2P6uZZ5FSM9Ttw"] : List String))) :=
  partial_unsubscribe_law [recHookAB] recHookAB
    (["UC_x5XG1OV2P6uZZ5FSM9Ttw"]) ("https://example.com/hook") ("t2")
    (fun _ => true) ⟨by decide, by decide⟩ (by decide) (by decide) (by decide)

/-- C4 counterexample: an unsubscribe request whose only channel ID is
malformed, sent for a webhook URL with no record, is answered with the
404 not-found error and no invalid-format payload — the not-found error
is reported ahead of the format error, contradicting the claim that the
validation error always comes first. -/
theorem unsubscribe_notfound_precedes_format_counterexample :
    (unsubscribeHandler (fun _ => true) true true (fun _ => true) ("t1")
        { method := "POST", webhookUrl := some ("https://example.com/hook"),
          channelIds := some (["bad-channel-id"]), allChannels := none }
        []).status = 404
    ∧ (unsubscribeHandler (fun _ => true) true true (fun _ => true) ("t1")
        { method := "POST", webhookUrl := some ("https://example.com/hook"),
          channelIds := some (["bad-channel-id"]), allChannels := none }
        []).message = "No subscription found for the provided webhook URL"
    ∧ (unsubscribeHandler (fun _ => true) true true (fun _ => true) ("t1")
        { method := "POST", webhookUrl := some ("https://example.com/hook"),
          channelIds := some (["bad-channel-id"]), allChannels := none }
        []).invalidChannelIds = none := by
  decide

/-- C4 amended: when a record exists for the webhook URL and the request
does not take the allChannels path, a channel list containing a
malformed ID is rejected with the invalid-format 400 before any store
write or hub call (the store is read once to locate the record, and the
not-found error takes precedence when that read finds nothing). -/
theorem unsubscribe_invalid_format_rejected (store : List Subscription)
    (req : UnsubscribeRequest) (url : String) (cids : List String)
    (validUrl : String → Bool) (saveOk1 saveOk2 : Bool)
    (hubOk : String → Bool) (now : String) (sub : Subscription)
    (hmethod : req.method = "POST")
    (hurl : req.webhookUrl = some url) (hurlne : url.isEmpty = false)
    (hvalidUrl : validUrl url = true)
    (hfound : findSubscriptionByWebhook store url = some sub)
    (hall : req.allChannels ≠ some true)
    (hcids : req.channelIds = some cids) (hne : cids ≠ [])
    (hbad : cids.filter (fun id => !isValidYouTubeChannelId id) ≠ []) :
    (unsubscribeHandler validUrl saveOk1 saveOk2 hubOk now req store).status = 400
    ∧ (unsubscribeHandler validUrl saveOk1 saveOk2 hubOk now req store).message
        = "One or more channel IDs are not in the correct YouTube format"
    ∧ (unsubscribeHandler validUrl saveOk1 saveOk2 hubOk now req store).invalidChannelIds
        = some (cids.filter (fun id => !isValidYouTubeChannelId id))
    ∧ (unsubscribeHandler validUrl saveOk1 saveOk2 hubOk now req store).store = store
    ∧ (unsubscribeHandler validUrl saveOk1 saveOk2 hubOk now req store).hubCalls = [] := by
  have hm : (req.method != "POST") = false := by
    rw [hmethod]
    rfl
  have hallb : (req.allChannels == some true) = false :=
    beq_eq_false_iff_ne.mpr hall
  have hcne : cids.isEmpty = false := by
    cases hb : cids.isEmpty with
    | true => exact absurd (List.isEmpty_iff.mp hb) hne
    | false => rfl
  have hbadb : (cids.filter (fun id => !isValidYouTubeChannelId id)).isEmpty = false := by
    cases hb : (cids.filter (fun id => !isValidYouTubeChannelId id)).isEmpty with
    | true => exact absurd (List.isEmpty_iff.mp hb) hbad
    | false => rfl
  simp only [unsubscribeHandler, hm, Bool.false_eq_true, if_false, hurl,
    hurlne, hvalidUrl, Bool.not_true, Bool.or_false, hfound, hallb, hcids,
    hcne, hbadb, Bool.not_false, if_true]
  exact ⟨trivial, trivial, trivial, trivial, trivial⟩

/-- C4 witness: a malformed ID in the presence of a record is rejected
with the format error and no effect. -/
theorem unsubscribe_invalid_format_rejected_witness :
    (unsubscribeHandler (fun _ => true) true true (fun _ => true) ("t1")
        { method := "POST", webhookUrl := some ("https://example.com/hook"),
          channelIds := some (["bad-channel-id"]), allChannels := none }
        [recHookA]).status = 400
    ∧ (unsubscribeHandler (fun _ => true) true true (fun _ => true) ("t1")
        { method := "POST", webhookUrl := some ("https://example.com/hook"),
          channelIds := some (["bad-channel-id"]), allChannels := none }
        [recHookA]).message
        = "One or more channel IDs are not in the correct YouTube format"
    ∧ (unsubscribeHandler (fun _ => true) true true (fun _ => true) ("t1")
        { method := "POST", webhookUrl := some ("https://example.com/hook"),
          channelIds := some (["bad-channel-id"]), allChannels := none }
        [recHookA]).invalidChannelIds
        = some ((["bad-channel-id"] : List String).filter
            (fun id => !isValidYouTubeChannelId id))
    ∧ (unsubscribeHandler (fun _ => true) true true (fun _ => true) ("t1")
        { method := "POST", webhookUrl := some ("https://example.com/hook"),
          channelIds := some (["bad-channel-id"]), allChannels := none }
        [recHookA]).store = [recHookA]
    ∧ (unsubscribeHandler (fun _ => true) true true (fun _ => true) ("t1")
        { method := "POST", webhookUrl := some ("https://example.com/hook"),
          channelIds := some (["bad-channel-id"]), allChannels := none }
        [recHookA]).hubCalls = [] :=
  unsubscribe_invalid_format_rejected [recHookA]
    { method := "POST", webhookUrl := some ("https://example.com/hook"),
      channelIds := some (["bad-channel-id"]), allChannels := none }
    ("https://example.com/hook") (["bad-channel-id"]) (fun _ => true)
    true true (fun _ => true) ("t1") recHookA rfl rfl (by decide) rfl
    (by decide) (by decide) rfl (by decide) (by decide)

/-- The core unsubscribe flow (main plus counterpart) leaves every record
for a URL outside the given list unchanged, provided the list covers the
requested URL and any counterpart the flow derives. -/
theorem unsubscribeCore_frame {store : List Subscription} {url : String}
    {sub : Subscription} {urls : List String} (hwf : StoreWF store)
    (hfind : findSubscriptionByWebhook store url = some sub)
    (hmem : urls.contains url = true)
    (hcp : ∀ cUrl : String,
      (if isN8nWebhook url then
        (if isTestWebhook url then getProductionWebhookUrl url
         else if isProductionWebhook url then getTestWebhookUrl url else none)
       else none) = some cUrl → urls.contains cUrl = true)
    (saveOk1 saveOk2 : Bool) (hubOk : String → Bool) (now : String)
    (toUnsub : List String) :
    (unsubscribeCore saveOk1 saveOk2 hubOk now toUnsub url sub store).store.filter
        (fun r => !urls.contains r.webhookUrl) =
      store.filter (fun r => !urls.contains r.webhookUrl) := by
  unfold unsubscribeCore
  cases hc : (if isN8nWebhook url then
      (if isTestWebhook url then getProductionWebhookUrl url
       else if isProductionWebhook url then getTestWebhookUrl url else none)
     else none) with
  | none =>
    simp only [hc]
    exact processUnsubscription_frame hwf hfind hmem saveOk1 hubOk now toUnsub
  | some cUrl =>
    simp only [hc]
    have hcmem := hcp cUrl hc
    cases hfind2 : findSubscriptionByWebhook
        (processUnsubscription saveOk1 hubOk now toUnsub url sub store).store
        cUrl with
    | none =>
      simp only [hfind2]
      exact processUnsubscription_frame hwf hfind hmem saveOk1 hubOk now toUnsub
    | some cSub =>
      simp only [hfind2]
      have hwf2 := processUnsubscription_wf hwf hfind saveOk1 hubOk now toUnsub
      calc (processUnsubscription saveOk2 hubOk now
              (toUnsub.filter (fun id => cSub.channelIds.contains id)) cUrl cSub
              (processUnsubscription saveOk1 hubOk now toUnsub url sub store).store).store.filter
            (fun r => !urls.contains r.webhookUrl)
          = (processUnsubscription saveOk1 hubOk now toUnsub url sub store).store.filter
              (fun r => !urls.contains r.webhookUrl) :=
            processUnsubscription_frame hwf2 hfind2 hcmem saveOk2 hubOk now _
        _ = store.filter (fun r => !urls.contains r.webhookUrl) :=
            processUnsubscription_frame hwf hfind hmem saveOk1 hubOk now toUnsub

/-- C10: every subscribe or unsubscribe handler invocation leaves
unchanged, in order, every stored record whose webhookUrl is neither the
requested URL nor its mirrored counterpart: filtering the final store to
the untouched URLs gives back the same records as filtering the initial
store. -/
theorem handlers_frame_property (store : List Subscription)
    (hwf : StoreWF store) (validUrl : String → Bool)
    (saveOk1 saveOk2 : Bool) (hubOk : String → Bool) (now : String)
    (sreq : SubscribeRequest) (ureq : UnsubscribeRequest) :
    ((subscribeHandler validUrl saveOk1 saveOk2 hubOk now sreq store).store.filter
        (fun r => !(subscribeTouchedUrls sreq).contains r.webhookUrl) =
      store.filter (fun r => !(subscribeTouchedUrls sreq).contains r.webhookUrl))
    ∧ ((unsubscribeHandler validUrl saveOk1 saveOk2 hubOk now ureq store).store.filter
        (fun r => !(unsubscribeTouchedUrls ureq).contains r.webhookUrl) =
      store.filter (fun r => !(unsubscribeTouchedUrls ureq).contains r.webhookUrl)) := by
  constructor
  · rcases sreq with ⟨m, co, uo⟩
    cases hmeth : (m != "POST") with
    | true => simp [subscribeHandler, hmeth]
    | false =>
      cases co with
      | none => simp [subscribeHandler, hmeth]
      | some cids =>
        cases hce : cids.isEmpty with
        | true => simp [subscribeHandler, hmeth, hce]
        | false =>
          cases hinv : (cids.filter (fun id => !isValidYouTubeChannelId id)).isEmpty with
          | false => simp [subscribeHandler, hmeth, hce, hinv]
          | true =>
            cases uo with
            | none => simp [subscribeHandler, hmeth, hce, hinv]
            | some url =>
              cases hue : (url.isEmpty || !validUrl url) with
              | true => simp [subscribeHandler, hmeth, hce, hinv, hue]
              | false =>
                simp only [subscribeHandler, hmeth, Bool.false_eq_true,
                  if_false, hce, hinv, Bool.not_true, hue, if_true,
                  subscribeTouchedUrls]
                cases ht : isTestWebhook url with
                | false =>
                  simp only [ht, Bool.false_eq_true, if_false]
                  have hmem : (url :: ([] : List String)).contains url = true :=
                    contains_true_iff.mpr (List.mem_cons.mpr (Or.inl rfl))
                  exact processSubscription_frame hwf hmem saveOk1 hubOk now cids
                | true =>
                  have ht2 : strIncludes url ("webhook-test") = true := ht
                  cases hp : getProductionWebhookUrl url with
                  | none =>
                    rw [getProductionWebhookUrl, ht2] at hp
                    simp at hp
                  | some pUrl =>
                    simp only [ht, if_true, hp, Option.toList]
                    have hmemu : (url :: [pUrl]).contains url = true :=
                      contains_true_iff.mpr (List.mem_cons.mpr (Or.inl rfl))
                    have hmemp : (url :: [pUrl]).contains pUrl = true :=
                      contains_true_iff.mpr
                        (List.mem_cons.mpr (Or.inr (List.mem_cons.mpr (Or.inl rfl))))
                    have hwf2 := @processSubscription_wf store url hwf
                      saveOk1 hubOk now cids
                    calc (processSubscription saveOk2 hubOk now cids pUrl
                            (processSubscription saveOk1 hubOk now cids url store).store).store.filter
                          (fun r => !(url :: [pUrl]).contains r.webhookUrl)
                        = (processSubscription saveOk1 hubOk now cids url store).store.filter
                            (fun r => !(url :: [pUrl]).contains r.webhookUrl) :=
                          processSubscription_frame hwf2 hmemp saveOk2 hubOk now cids
                      _ = store.filter
                            (fun r => !(url :: [pUrl]).contains r.webhookUrl) :=
                          processSubscription_frame hwf hmemu saveOk1 hubOk now cids
  · rcases ureq with ⟨m, uo, co, ac⟩
    cases hmeth : (m != "POST") with
    | true => simp [unsubscribeHandler, hmeth]
    | false =>
      cases uo with
      | none => simp [unsubscribeHandler, hmeth]
      | some url =>
        cases hue : (url.isEmpty || !validUrl url) with
        | true => simp [unsubscribeHandler, hmeth, hue]
        | false =>
          cases hfind : findSubscriptionByWebhook store url with
          | none => simp [unsubscribeHandler, hmeth, hue, hfind]
          | some sub =>
            have hmem : ((unsubscribeTouchedUrls
                { method := m, webhookUrl := some url, channelIds := co,
                  allChannels := ac }).contains url) = true := by
              unfold unsubscribeTouchedUrls
              exact contains_true_iff.mpr (List.mem_cons.mpr (Or.inl rfl))
            have hcp : ∀ cUrl : String,
                (if isN8nWebhook url then
                  (if isTestWebhook url then getProductionWebhookUrl url
                   else if isProductionWebhook url then getTestWebhookUrl url
                   else none)
                 else none) = some cUrl →
                (unsubscribeTouchedUrls
                  { method := m, webhookUrl := some url, channelIds := co,
                    allChannels := ac }).contains cUrl = true := by
              intro cUrl hc
              unfold unsubscribeTouchedUrls
              dsimp only
              cases hn : isN8nWebhook url with
              | false =>
                rw [hn] at hc
                simp at hc
              | true =>
                rw [hn, if_pos rfl] at hc
                cases ht : isTestWebhook url with
                | true =>
                  rw [ht, if_pos rfl] at hc
                  simp [hc]
                | false =>
                  rw [ht] at hc
                  simp only [Bool.false_eq_true, if_false] at hc
                  cases hpr : isProductionWebhook url with
                  | true =>
                    rw [hpr, if_pos rfl] at hc
                    simp [hc]
                  | false =>
                    rw [hpr] at hc
                    simp at hc
            cases hac : (ac == some true) with
            | true =>
              simp only [unsubscribeHandler, hmeth, Bool.false_eq_true,
                if_false, hue, Bool.not_true, if_true, hfind, hac]
              exact unsubscribeCore_frame hwf hfind hmem hcp saveOk1 saveOk2
                hubOk now sub.channelIds
            | false =>
              cases co with
              | none =>
                simp [unsubscribeHandler, hmeth, hue, hfind, hac]
              | some cids =>
                cases hce : cids.isEmpty with
                | true =>
                  simp [unsubscribeHandler, hmeth, hue, hfind, hac, hce]
                | false =>
                  cases hinv : (cids.filter
                      (fun id => !isValidYouTubeChannelId id)).isEmpty with
                  | false =>
                    simp [unsubscribeHandler, hmeth, hue, hfind, hac, hce, hinv]
                  | true =>
                    cases hint : (cids.filter
                        (fun id => sub.channelIds.contains id)).isEmpty with
                    | true =>
                      simp only [unsubscribeHandler, hmeth, Bool.false_eq_true,
                        if_false, hue, Bool.not_true, if_true, hfind, hac,
                        hce, hinv, hint]
                    | false =>
                      simp only [unsubscribeHandler, hmeth, Bool.false_eq_true,
                        if_false, hue, Bool.not_true, if_true, hfind, hac,
                        hce, hinv, hint]
                      exact unsubscribeCore_frame hwf hfind hmem hcp saveOk1
                        saveOk2 hubOk now
                        (cids.filter (fun id => sub.channelIds.contains id))

/-- C10 witness: a dual subscribe for a test URL and an all-channels
unsubscribe for another URL both preserve the untouched records of a
one-record store. -/
theorem handlers_frame_property_witness :
    ((subscribeHandler (fun _ => true) true true (fun _ => true) ("t1")
        { method := "POST", channelIds := some (["UC_x5XG1OV2P6uZZ5FSM9Ttw"]),
          webhookUrl := some ("https://n8n.example.com/webhook-test/yt") }
        [recHookA]).store.filter
        (fun r => !(subscribeTouchedUrls
          { method := "POST", channelIds := some (["UC_x5XG1OV2P6uZZ5FSM9Ttw"]),
            webhookUrl := some ("https://n8n.example.com/webhook-test/yt") }).contains
            r.webhookUrl) =
      ([recHookA] : List Subscription).filter
        (fun r => !(subscribeTouchedUrls
          { method := "POST", channelIds := some (["UC_x5XG1OV2P6uZZ5FSM9Ttw"]),
            webhookUrl := some ("https://n8n.example.com/webhook-test/yt") }).contains
            r.webhookUrl))
    ∧ ((unsubscribeHandler (fun _ => true) true true (fun _ => true) ("t1")
        { method := "POST", webhookUrl := some ("https://example.com/hook"),
          channelIds := none, allChannels := some true }
        [recHookA]).store.filter
        (fun r => !(unsubscribeTouchedUrls
          { method := "POST", webhookUrl := some ("https://example.com/hook"),
            channelIds := none, allChannels := some true }).contains
            r.webhookUrl) =
      ([recHookA] : List Subscription).filter
        (fun r => !(unsubscribeTouchedUrls
          { method := "POST", webhookUrl := some ("https://example.com/hook"),
            channelIds := none, allChannels := some true }).contains
            r.webhookUrl)) :=
  handlers_frame_property [recHookA] ⟨by decide, by decide⟩ (fun _ => true)
    true true (fun _ => true) ("t1")
    { method := "POST", channelIds := some (["UC_x5XG1OV2P6uZZ5FSM9Ttw"]),
      webhookUrl := some ("https://n8n.example.com/webhook-test/yt") }
    { method := "POST", webhookUrl := some ("https://example.com/hook"),
      channelIds := none, allChannels := some true }
